import Mathlib

/-!
Verification development for the pytdx formula interpreter
(lexer → parser → AST → evaluator → context pipeline).

The Lean definitions below are a shallow embedding of the Python source:

* `tdx_interpreter/errors/exceptions.py`  → exception-class hierarchy
* `tdx_interpreter/lexer/tokens.py`, `lexer.py` → token model and lexer
* `tdx_interpreter/parser/precedence.py`, `parser.py` → precedence table and parser
* `tdx_interpreter/core/context.py` → execution context
* `tdx_interpreter/functions/base.py`, `registry.py` → function objects / registry
* `tdx_interpreter/core/evaluator.py` → AST evaluator

Python / pandas numbers are modelled as exact rationals together with the
IEEE specials `nan`, `inf`, `-inf`; pandas `Series` values are lists of
such numbers, aligned by their positional (range) index.  Results of
non-integral float exponentiation are irrational and fall outside the
rational value model; they are mapped to `nan` (no claim below depends on
that corner).
-/

namespace TDX

/-! ## Numbers: Python ints/floats with the IEEE specials -/

/-- Scalar numeric value of the interpreter: a Python `int`, a Python
`float` (modelled as an exact rational), or one of the float specials. -/
inductive PyNum where
  | int : ℤ → PyNum
  | float : ℚ → PyNum
  | nan : PyNum
  | inf : PyNum
  | ninf : PyNum
deriving DecidableEq, Repr

/-- Extended rational used to compare/classify `PyNum` values:
`none` stands for `nan`. -/
inductive ExtQ where
  | fin : ℚ → ExtQ
  | pinf : ExtQ
  | minf : ExtQ
deriving DecidableEq, Repr

def PyNum.toExtQ : PyNum → Option ExtQ
  | .int n => some (.fin (n : ℚ))
  | .float q => some (.fin q)
  | .nan => none
  | .inf => some .pinf
  | .ninf => some .minf

def ExtQ.ltB : ExtQ → ExtQ → Bool
  | .fin a, .fin b => decide (a < b)
  | .fin _, .pinf => true
  | .minf, .fin _ => true
  | .minf, .pinf => true
  | _, _ => false

def ExtQ.eqB : ExtQ → ExtQ → Bool
  | .fin a, .fin b => decide (a = b)
  | .pinf, .pinf => true
  | .minf, .minf => true
  | _, _ => false

/-- Numeric `<` with IEEE `nan` semantics (any comparison with `nan` is false). -/
def numLt (a b : PyNum) : Bool :=
  match a.toExtQ, b.toExtQ with
  | some x, some y => x.ltB y
  | _, _ => false

/-- Numeric `=` with IEEE `nan` semantics. -/
def numEq (a b : PyNum) : Bool :=
  match a.toExtQ, b.toExtQ with
  | some x, some y => x.eqB y
  | _, _ => false

def numLe (a b : PyNum) : Bool := numLt a b || numEq a b

/-- Truthiness of a number (`value != 0`); note that `nan` is truthy in Python. -/
def PyNum.truthy : PyNum → Bool
  | .int n => decide (n ≠ 0)
  | .float q => decide (q ≠ 0)
  | .nan => true
  | .inf => true
  | .ninf => true

def PyNum.isZero : PyNum → Bool
  | .int n => decide (n = 0)
  | .float q => decide (q = 0)
  | _ => false

/-- Sign classification of a non-`nan` number: `1`, `0` or `-1`. -/
def PyNum.signZ : PyNum → ℤ
  | .int n => if n > 0 then 1 else if n < 0 then -1 else 0
  | .float q => if q > 0 then 1 else if q < 0 then -1 else 0
  | .nan => 0
  | .inf => 1
  | .ninf => -1

/-- Python addition on numbers (`int + int` stays `int`, otherwise float
arithmetic with the usual IEEE special cases). -/
def pyAdd : PyNum → PyNum → PyNum
  | .int a, .int b => .int (a + b)
  | .nan, _ => .nan
  | _, .nan => .nan
  | .inf, .ninf => .nan
  | .ninf, .inf => .nan
  | .inf, _ => .inf
  | _, .inf => .inf
  | .ninf, _ => .ninf
  | _, .ninf => .ninf
  | .int a, .float b => .float ((a : ℚ) + b)
  | .float a, .int b => .float (a + (b : ℚ))
  | .float a, .float b => .float (a + b)

def pyNeg : PyNum → PyNum
  | .int n => .int (-n)
  | .float q => .float (-q)
  | .nan => .nan
  | .inf => .ninf
  | .ninf => .inf

def pySub (a b : PyNum) : PyNum := pyAdd a (pyNeg b)

/-- Python multiplication on numbers. -/
def pyMul : PyNum → PyNum → PyNum
  | .int a, .int b => .int (a * b)
  | .nan, _ => .nan
  | _, .nan => .nan
  | .inf, b => if b.isZero then .nan else if b.signZ > 0 then .inf else .ninf
  | .ninf, b => if b.isZero then .nan else if b.signZ > 0 then .ninf else .inf
  | a, .inf => if a.isZero then .nan else if a.signZ > 0 then .inf else .ninf
  | a, .ninf => if a.isZero then .nan else if a.signZ > 0 then .ninf else .inf
  | .int a, .float b => .float ((a : ℚ) * b)
  | .float a, .int b => .float (a * (b : ℚ))
  | .float a, .float b => .float (a * b)

def PyNum.toQ? : PyNum → Option ℚ
  | .int n => some (n : ℚ)
  | .float q => some q
  | _ => none

/-! ## Exception classes (`errors/exceptions.py`) -/

/-- The TDX exception classes declared in `errors/exceptions.py`. -/
inductive TDXClass where
  | tdxError
  | tdxSyntaxError
  | tdxRuntimeError
  | tdxTypeError
  | tdxNameError
  | tdxValueError
  | tdxArgumentError
deriving DecidableEq, Repr

/-- The direct superclass of each TDX exception class, read off the
`class C(D):` headers of `errors/exceptions.py` (`TDXError` extends the
Python builtin `Exception`, represented by `none` here). -/
def directSuperclass : TDXClass → Option TDXClass
  | .tdxError => none
  | .tdxSyntaxError => some .tdxError
  | .tdxRuntimeError => some .tdxError
  | .tdxTypeError => some .tdxRuntimeError
  | .tdxNameError => some .tdxRuntimeError
  | .tdxValueError => some .tdxRuntimeError
  | .tdxArgumentError => some .tdxRuntimeError

def isSubclassAux : Nat → TDXClass → TDXClass → Bool
  | 0, _, _ => false
  | fuel + 1, c, d =>
    if c = d then true
    else
      match directSuperclass c with
      | some p => isSubclassAux fuel p d
      | none => false

/-- `isSubclassOf c d` holds when class `c` is `d` or inherits from `d`
(Python `issubclass`); the hierarchy has depth at most 3. -/
def isSubclassOf (c d : TDXClass) : Bool := isSubclassAux 8 c d

/-- The four typed evaluation-error classes of the taxonomy. -/
def isTypedEvalError : TDXClass → Bool
  | .tdxTypeError => true
  | .tdxNameError => true
  | .tdxValueError => true
  | .tdxArgumentError => true
  | _ => false

/-- Exception class of any exception that can arise during evaluation:
either a TDX class or one of the Python builtins the interpreter code
can raise. -/
inductive ExcClass where
  | tdx : TDXClass → ExcClass
  | zeroDivisionError
  | indexError
  | pyTypeError
  | pyValueError
  | fuelExhausted
deriving DecidableEq, Repr

/-- A raised exception: class, `str(e)` message, the `available_names`
payload of a `TDXNameError`, and (class, message) of the `__cause__` set
by `raise ... from e`. -/
structure PyExc where
  cls : ExcClass
  message : String
  availableNames : List String
  cause : Option (ExcClass × String)
deriving DecidableEq, Repr

def mkExc (c : ExcClass) (msg : String) : PyExc := ⟨c, msg, [], Option.none⟩

def mkSyntaxError (msg : String) : PyExc := mkExc (.tdx .tdxSyntaxError) msg

def mkNameError (msg : String) (names : List String) : PyExc :=
  ⟨.tdx .tdxNameError, msg, names, Option.none⟩

def mkTypeError (msg : String) : PyExc := mkExc (.tdx .tdxTypeError) msg

def mkValueError (msg : String) : PyExc := mkExc (.tdx .tdxValueError) msg

def mkArgumentError (msg : String) : PyExc := mkExc (.tdx .tdxArgumentError) msg

def mkRuntimeError (msg : String) : PyExc := mkExc (.tdx .tdxRuntimeError) msg

/-- `raise TDXRuntimeError(prefixMsg + str(e)) from e` — the wrapping
pattern used by the evaluator's `except Exception` handlers. -/
def wrapRuntime (prefixMsg : String) (e : PyExc) : PyExc :=
  ⟨.tdx .tdxRuntimeError, prefixMsg ++ e.message, [], some (e.cls, e.message)⟩

/-- `isinstance(e, (TDXArgumentError, TDXTypeError, TDXValueError))` as
used by `TDXFunction.__call__`. -/
def isArgTypeValueErr (e : PyExc) : Bool :=
  match e.cls with
  | .tdx .tdxArgumentError => true
  | .tdx .tdxTypeError => true
  | .tdx .tdxValueError => true
  | _ => false

/-! ## Scalar division, modulo and power (Python semantics) -/

/-- Python float/int true division `a / b`: division by zero raises
`ZeroDivisionError`; the result of a finite division is always a float. -/
def pyDiv : PyNum → PyNum → Except PyExc PyNum
  | .int _, .int 0 => .error (mkExc .zeroDivisionError "division by zero")
  | a, b =>
    if b.isZero then
      .error (mkExc .zeroDivisionError "float division by zero")
    else
      match a, b with
      | .nan, _ => .ok .nan
      | _, .nan => .ok .nan
      | .inf, .inf => .ok .nan
      | .inf, .ninf => .ok .nan
      | .ninf, .inf => .ok .nan
      | .ninf, .ninf => .ok .nan
      | .inf, b => .ok (if b.signZ > 0 then .inf else .ninf)
      | .ninf, b => .ok (if b.signZ > 0 then .ninf else .inf)
      | _, .inf => .ok (.float 0)
      | _, .ninf => .ok (.float 0)
      | a, b =>
        match a.toQ?, b.toQ? with
        | some x, some y => .ok (.float (x / y))
        | _, _ => .ok .nan

/-- Python floor-modulo on finite rationals: `a - b * ⌊a / b⌋`
(the result carries the sign of the divisor). -/
def ratFloorMod (a b : ℚ) : ℚ := a - b * (⌊a / b⌋ : ℚ)

/-- Python `a % b`: modulo by zero raises `ZeroDivisionError`; on finite
operands it is floor-modulo (`int % int` stays `int`). -/
def pyMod : PyNum → PyNum → Except PyExc PyNum
  | .int _, .int 0 => .error (mkExc .zeroDivisionError "integer modulo by zero")
  | a, b =>
    if b.isZero then
      .error (mkExc .zeroDivisionError "float modulo by zero")
    else
      match a, b with
      | .nan, _ => .ok .nan
      | _, .nan => .ok .nan
      | .inf, _ => .ok .nan
      | .ninf, _ => .ok .nan
      | .int x, .int y => .ok (.int (Int.fmod x y))
      | a, .inf => .ok (if a.signZ ≥ 0 then a else .inf)
      | a, .ninf => .ok (if a.signZ ≤ 0 then a else .ninf)
      | a, b =>
        match a.toQ?, b.toQ? with
        | some x, some y => .ok (.float (ratFloorMod x y))
        | _, _ => .ok .nan

/-- Exact rational power with an integer exponent; a zero base with a
negative exponent is the caller's responsibility. -/
def ratZPow (a : ℚ) (n : ℤ) : ℚ := a ^ n

/-- Python `a ** b`.  Integral exponents are computed exactly
(`int ** nonneg int` stays `int`); `0 ** negative` raises
`ZeroDivisionError`.  A non-integral exponent yields an irrational float
that the rational value model maps to `nan`. -/
def pyPow : PyNum → PyNum → Except PyExc PyNum
  | .nan, b => .ok (if b.isZero then .float 1 else .nan)
  | a, .nan => .ok (if numEq a (.int 1) then .float 1 else .nan)
  | .inf, b =>
    .ok (if b.isZero then .float 1 else if b.signZ > 0 then .inf else .float 0)
  | .ninf, b =>
    .ok (if b.isZero then .float 1 else if b.signZ > 0 then .inf else .float 0)
  | a, .inf =>
    .ok (if numEq a (.int 1) then .float 1 else
         if numLt (pyNeg (.int 1)) a ∧ numLt a (.int 1) then .float 0 else .inf)
  | a, .ninf =>
    .ok (if numEq a (.int 1) then .float 1 else
         if numLt (pyNeg (.int 1)) a ∧ numLt a (.int 1) then .inf else .float 0)
  | .int a, .int b =>
    if b ≥ 0 then .ok (.int (a ^ b.toNat))
    else if a = 0 then
      .error (mkExc .zeroDivisionError "0.0 cannot be raised to a negative power")
    else .ok (.float (ratZPow (a : ℚ) b))
  | a, b =>
    match a.toQ?, b.toQ? with
    | some x, some y =>
      if y.den = 1 then
        if x = 0 ∧ y.num < 0 then
          .error (mkExc .zeroDivisionError "0.0 cannot be raised to a negative power")
        else .ok (.float (ratZPow x y.num))
      else .ok .nan
    | _, _ => .ok .nan

/-! ## pandas/numpy elementwise primitives (the `pd.Series` branch) -/

/-- numpy true division: never raises; division by zero yields
`±inf`/`nan` by the dividend's sign. -/
def pdDiv (a b : PyNum) : PyNum :=
  if b.isZero then
    match a.toExtQ with
    | Option.none => .nan
    | some e =>
      match e with
      | .fin q => if q > 0 then .inf else if q < 0 then .ninf else .nan
      | .pinf => .inf
      | .minf => .ninf
  else
    match pyDiv a b with
    | .ok v => v
    | .error _ => .nan

/-- numpy modulo: by zero it yields `0` on integer cells and `nan` on
float cells, never raising. -/
def pdMod (a b : PyNum) : PyNum :=
  if b.isZero then
    match a, b with
    | .int _, .int _ => .int 0
    | _, _ => .nan
  else
    match pyMod a b with
    | .ok v => v
    | .error _ => .nan

/-- numpy power: like Python power except that a zero base with a
negative exponent yields `inf` on float cells, while an integer cell
raised to a negative integer power raises a `ValueError`. -/
def pdPow (a b : PyNum) : Except PyExc PyNum :=
  match a, b with
  | .int _, .int e =>
    if e < 0 then
      .error (mkExc .pyValueError "Integers to negative integer powers are not allowed.")
    else pyPow a b
  | a, b =>
    match pyPow a b with
    | .ok v => .ok v
    | .error _ => .ok (if b.signZ < 0 then .inf else .float 0)

/-! ## Runtime values -/

/-- Runtime value of the evaluator: a numeric scalar, a Python `bool`, a
string, a numeric pandas `Series` (positional range index), a boolean
`Series`, or Python `None` (the result of an empty program). -/
inductive Value where
  | num : PyNum → Value
  | bool : Bool → Value
  | str : String → Value
  | series : List PyNum → Value
  | boolSeries : List Bool → Value
  | none : Value
deriving DecidableEq, Repr

/-- `isinstance(x, pd.Series)`. -/
def Value.isSeries : Value → Bool
  | .series _ => true
  | .boolSeries _ => true
  | _ => false

/-- Python `bool(x)` on the values that can reach it (never a series,
whose branch is taken first by every operator helper). -/
def truthyVal : Value → Bool
  | .num x => x.truthy
  | .bool b => b
  | .str s => decide (s ≠ "")
  | .series xs => xs.all PyNum.truthy
  | .boolSeries bs => bs.all id
  | .none => false

/-- `pd.Series(x)` as numeric cells: a series stays itself, a scalar
becomes a one-element series; a bool is the integer 0/1.  Strings and
`None` do not support the numeric series operators in the model. -/
def toNumCells : Value → Except PyExc (List PyNum)
  | .series xs => .ok xs
  | .boolSeries bs => .ok (bs.map fun b => .int (if b then 1 else 0))
  | .num x => .ok [x]
  | .bool b => .ok [.int (if b then 1 else 0)]
  | .str _ => .error (mkExc .pyTypeError "unsupported operand type for series arithmetic: str")
  | .none => .error (mkExc .pyTypeError "unsupported operand type for series arithmetic: NoneType")

/-- `int64 → float64` dtype promotion: an integer cell becomes the
equal float, other cells are already float-typed. -/
def promoteToFloat : PyNum → PyNum
  | .int n => .float (n : ℚ)
  | other => other

/-- pandas index alignment of two range-indexed series: the shorter
operand is reindexed to the union index, its missing rows filled with
`NaN` — and since an int64 column cannot hold `NaN`, that reindexing
promotes ALL of the shorter operand's cells to float64.  Equal-length
series align one-to-one with no promotion. -/
def alignCells (xs ys : List PyNum) : List PyNum × List PyNum :=
  if xs.length < ys.length then
    (xs.map promoteToFloat ++ List.replicate (ys.length - xs.length) PyNum.nan, ys)
  else if ys.length < xs.length then
    (xs, ys.map promoteToFloat ++ List.replicate (xs.length - ys.length) PyNum.nan)
  else (xs, ys)

/-- Elementwise combination of two series after pandas index
alignment. -/
def alignWith (f : PyNum → PyNum → Except PyExc PyNum) (xs ys : List PyNum) :
    Except PyExc (List PyNum) :=
  (List.zip (alignCells xs ys).1 (alignCells xs ys).2).mapM fun p => f p.1 p.2

/-! ## Tokens (`lexer/tokens.py`) -/

/-- Token kinds of `lexer/tokens.py` (`TokenType`). -/
inductive TokenType where
  | NUMBER | STRING | IDENTIFIER
  | PLUS | MINUS | MULTIPLY | DIVIDE | MODULO | POWER
  | EQUAL | NOT_EQUAL | GREATER | LESS | GREATER_EQUAL | LESS_EQUAL
  | AND | OR | NOT
  | ASSIGN
  | LEFT_PAREN | RIGHT_PAREN | LEFT_BRACKET | RIGHT_BRACKET | COMMA | SEMICOLON
  | IF | THEN | ELSE
  | NEWLINE | EOF
  | UNKNOWN
deriving DecidableEq, Repr

/-- The lexed value carried by a token (`Token.value`). -/
inductive TokValue where
  | vnum : PyNum → TokValue
  | vstr : String → TokValue
  | vnone : TokValue
deriving DecidableEq, Repr

/-- A positioned token (`Token`). -/
structure Token where
  type : TokenType
  value : TokValue
  position : Nat
  line : Nat
  column : Nat
deriving DecidableEq, Repr

def dummyToken : Token := ⟨.EOF, .vnone, 0, 1, 1⟩

/-- The two-character operators of the `OPERATORS` table, tried before the
one-character ones (longest-first matching). -/
def twoCharOps : List (Char × Char × TokenType) :=
  [('<', '>', .NOT_EQUAL), ('!', '=', .NOT_EQUAL), ('>', '=', .GREATER_EQUAL),
   ('<', '=', .LESS_EQUAL), (':', '=', .ASSIGN)]

def oneCharOps : List (Char × TokenType) :=
  [('+', .PLUS), ('-', .MINUS), ('*', .MULTIPLY), ('/', .DIVIDE), ('%', .MODULO),
   ('^', .POWER), ('=', .EQUAL), ('>', .GREATER), ('<', .LESS)]

def delimiterTable : List (Char × TokenType) :=
  [('(', .LEFT_PAREN), (')', .RIGHT_PAREN), ('[', .LEFT_BRACKET),
   (']', .RIGHT_BRACKET), (',', .COMMA), (';', .SEMICOLON)]

/-- The `KEYWORDS` table of `lexer/tokens.py`. -/
def keywordTable : List (String × TokenType) :=
  [("IF", .IF), ("THEN", .THEN), ("ELSE", .ELSE),
   ("AND", .AND), ("OR", .OR), ("NOT", .NOT)]

/-! ## Lexer (`lexer/lexer.py`) -/

def isHWS (c : Char) : Bool := c = ' ' || c = '\t'

def isIdentStart (c : Char) : Bool := c.isAlpha || c = '_'

def isIdentChar (c : Char) : Bool := c.isAlpha || c.isDigit || c = '_'

/-- Split a char list at the first closing brace, returning the consumed
part (closing brace included) and the remainder; `none` when there is no
closing brace (the block-comment regex then fails to match). -/
def splitCloseBrace : List Char → Option (List Char × List Char)
  | [] => Option.none
  | c :: r =>
    if c = '\x7d' then some ([c], r)
    else
      match splitCloseBrace r with
      | some (t, r') => some (c :: t, r')
      | Option.none => Option.none

/-- The comment regex `//.*?$|\x7b.*?\x7d|#.*?$` (MULTILINE, DOTALL),
matched at the current position: `//` and `#` comments extend minimally
up to (not including) the next newline; a block comment extends minimally
through the first closing brace.  Returns the matched text and the rest. -/
def matchComment : List Char → Option (List Char × List Char)
  | '/' :: '/' :: r =>
    some ('/' :: '/' :: r.takeWhile (fun c => c ≠ '\n'), r.dropWhile (fun c => c ≠ '\n'))
  | '\x7b' :: r =>
    match splitCloseBrace r with
    | some (t, r') => some ('\x7b' :: t, r')
    | Option.none => Option.none
  | '#' :: r =>
    some ('#' :: r.takeWhile (fun c => c ≠ '\n'), r.dropWhile (fun c => c ≠ '\n'))
  | _ => Option.none

/-- The string regex `"([^"\\]|\\.)*"` matched at the current position:
returns the characters between the quotes (escapes unprocessed) and the
rest after the closing quote. -/
def matchStringBody : List Char → Option (List Char × List Char)
  | [] => Option.none
  | c :: r =>
    if c = '"' then some ([], r)
    else if c = '\\' then
      match r with
      | [] => Option.none
      | e :: r2 =>
        match matchStringBody r2 with
        | some (t, rest) => some (c :: e :: t, rest)
        | Option.none => Option.none
    else
      match matchStringBody r with
      | some (t, rest) => some (c :: t, rest)
      | Option.none => Option.none

/-- One pass of Python `str.replace` for a two-character pattern replaced
by a single character. -/
def replacePair (a b out : Char) : List Char → List Char
  | [] => []
  | [x] => [x]
  | x :: y :: r =>
    if x = a ∧ y = b then out :: replacePair a b out r
    else x :: replacePair a b out (y :: r)

/-- `value_str[1:-1].replace('\\"', '"').replace('\\\\', '\\')`. -/
def unescapeString (cs : List Char) : List Char :=
  replacePair '\\' '\\' '\\' (replacePair '\\' '"' '"' cs)

def digitsToNat (ds : List Char) : Nat :=
  ds.foldl (fun acc c => 10 * acc + (c.toNat - '0'.toNat)) 0

/-- Number literal value: `\d+` keeps integer semantics, `\d+\.\d+` is a
float. -/
def numberValue (intDs fracDs : List Char) : PyNum :=
  if fracDs.isEmpty then .int (digitsToNat intDs : ℤ)
  else .float ((digitsToNat intDs : ℚ) + (digitsToNat fracDs : ℚ) / (10 : ℚ) ^ fracDs.length)

/-- Number regex `\d+(?:\.\d+)?` at the current position: integer digits,
fraction digits (empty when there is no dotted part), and the rest. -/
def matchNumber (cs : List Char) : Option (List Char × List Char × List Char) :=
  let intDs := cs.takeWhile Char.isDigit
  if intDs.isEmpty then Option.none
  else
    let r1 := cs.dropWhile Char.isDigit
    match r1 with
    | '.' :: r2 =>
      let fracDs := r2.takeWhile Char.isDigit
      if fracDs.isEmpty then some (intDs, [], r1)
      else some (intDs, fracDs, r2.dropWhile Char.isDigit)
    | _ => some (intDs, [], r1)

def matchTwoCharOp : List Char → Option (TokenType × String × List Char)
  | a :: b :: r =>
    match twoCharOps.find? (fun t => t.1 = a ∧ t.2.1 = b) with
    | some t => some (t.2.2, String.mk [a, b], r)
    | Option.none => Option.none
  | _ => Option.none

def matchOneCharOp : List Char → Option (TokenType × String × List Char)
  | c :: r =>
    match oneCharOps.find? (fun t => t.1 = c) with
    | some t => some (t.2, String.mk [c], r)
    | Option.none => Option.none
  | _ => Option.none

/-- Longest-first operator matching (`_tokenize_operator`). -/
def matchOperator (cs : List Char) : Option (TokenType × String × List Char) :=
  match matchTwoCharOp cs with
  | some m => some m
  | Option.none => matchOneCharOp cs

def matchDelimiter : List Char → Option (TokenType × String × List Char)
  | c :: r =>
    match delimiterTable.find? (fun t => t.1 = c) with
    | some t => some (t.2, String.mk [c], r)
    | Option.none => Option.none
  | _ => Option.none

/-- Identifier regex `[A-Za-z_][A-Za-z0-9_]*`, case-folded to upper case,
keyword classification per the `KEYWORDS` table
(`_tokenize_identifier`). -/
def matchIdentifier (cs : List Char) : Option (String × TokenType × List Char) :=
  match cs with
  | c :: _ =>
    if isIdentStart c then
      let ident := cs.takeWhile isIdentChar
      let upper := String.mk (ident.map Char.toUpper)
      let tt :=
        match keywordTable.find? (fun kv => kv.1 = upper) with
        | some kv => kv.2
        | Option.none => TokenType.IDENTIFIER
      some (upper, tt, cs.dropWhile isIdentChar)
    else Option.none
  | _ => Option.none

/-- The scanning loop of `TDXLexer.tokenize`, one rule tried per
iteration in the source's priority order; `fuel` dominates the number of
iterations (each consumes at least one character). -/
def lexLoop : Nat → List Char → Nat → Nat → Nat → List Token →
    Except PyExc (List Token)
  | 0, _, _, _, _, _ => .error (mkExc .fuelExhausted "lexer fuel exhausted")
  | _ + 1, [], pos, line, col, acc =>
    .ok (acc ++ [⟨.EOF, .vnone, pos, line, col⟩])
  | fuel + 1, cs, pos, line, col, acc =>
    let wsLen := (cs.takeWhile isHWS).length
    if 0 < wsLen then
      lexLoop fuel (cs.dropWhile isHWS) (pos + wsLen) line (col + wsLen) acc
    else
      match matchComment cs with
      | some (text, rest) =>
        let nl := text.count '\n'
        if 0 < nl then
          lexLoop fuel rest (pos + text.length) (line + nl)
            ((text.reverse.takeWhile (fun c => c ≠ '\n')).length + 1) acc
        else
          lexLoop fuel rest (pos + text.length) line (col + text.length) acc
      | Option.none =>
        match cs with
        | '\n' :: r =>
          lexLoop fuel r (pos + 1) (line + 1) 1
            (acc ++ [⟨.NEWLINE, .vstr "\n", pos, line, col⟩])
        | _ =>
          match matchNumber cs with
          | some (intDs, fracDs, rest) =>
            let len := intDs.length + (if fracDs.isEmpty then 0 else fracDs.length + 1)
            lexLoop fuel rest (pos + len) line (col + len)
              (acc ++ [⟨.NUMBER, .vnum (numberValue intDs fracDs), pos, line, col⟩])
          | Option.none =>
            match cs with
            | '"' :: r =>
              match matchStringBody r with
              | some (body, rest) =>
                let len := body.length + 2
                lexLoop fuel rest (pos + len) line (col + len)
                  (acc ++ [⟨.STRING, .vstr (String.mk (unescapeString body)), pos, line, col⟩])
              | Option.none => .error (mkSyntaxError "Unknown character '\"'")
            | _ =>
              match matchOperator cs with
              | some (tt, s, rest) =>
                lexLoop fuel rest (pos + s.length) line (col + s.length)
                  (acc ++ [⟨tt, .vstr s, pos, line, col⟩])
              | Option.none =>
                match matchDelimiter cs with
                | some (tt, s, rest) =>
                  lexLoop fuel rest (pos + 1) line (col + 1)
                    (acc ++ [⟨tt, .vstr s, pos, line, col⟩])
                | Option.none =>
                  match matchIdentifier cs with
                  | some (upper, tt, rest) =>
                    lexLoop fuel rest (pos + upper.length) line (col + upper.length)
                      (acc ++ [⟨tt, .vstr upper, pos, line, col⟩])
                  | Option.none =>
                    .error (mkSyntaxError
                      ("Unknown character '" ++ String.mk [cs.headD ' '] ++ "'"))

/-- `TDXLexer.tokenize` on a character list. -/
def tokenizeChars (cs : List Char) : Except PyExc (List Token) :=
  lexLoop (cs.length + 1) cs 0 1 1 []

/-- `tokenize(text)`. -/
def tokenize (s : String) : Except PyExc (List Token) := tokenizeChars s.data

/-! ## AST (`core/ast_nodes.py`) -/

/-- The AST node variants of `core/ast_nodes.py`. -/
inductive ASTNode where
  | numberLit : PyNum → ASTNode
  | stringLit : String → ASTNode
  | identifier : String → ASTNode
  | binaryOp : ASTNode → String → ASTNode → ASTNode
  | unaryOp : String → ASTNode → ASTNode
  | functionCall : String → List ASTNode → ASTNode
  | assignment : String → ASTNode → ASTNode
  | conditional : ASTNode → ASTNode → ASTNode → ASTNode
  | arrayAccess : ASTNode → ASTNode → ASTNode
  | block : List ASTNode → ASTNode
  | program : List ASTNode → ASTNode
deriving Repr

/-! ## Operator precedence (`parser/precedence.py`) -/

/-- The `Precedence` levels (`IntEnum` values). -/
def precNONE : Nat := 0
def precASSIGNMENT : Nat := 1
def precOR : Nat := 2
def precAND : Nat := 3
def precEQUALITY : Nat := 4
def precCOMPARISON : Nat := 5
def precTERM : Nat := 6
def precFACTOR : Nat := 7
def precUNARY : Nat := 8
def precPOWER : Nat := 9

/-- `OperatorPrecedence.get_precedence`: the `PRECEDENCE_MAP`, defaulting
to `NONE` for token types without a precedence. -/
def getPrecedence : TokenType → Nat
  | .ASSIGN => precASSIGNMENT
  | .OR => precOR
  | .AND => precAND
  | .NOT => precUNARY
  | .EQUAL => precEQUALITY
  | .NOT_EQUAL => precEQUALITY
  | .GREATER => precCOMPARISON
  | .LESS => precCOMPARISON
  | .GREATER_EQUAL => precCOMPARISON
  | .LESS_EQUAL => precCOMPARISON
  | .PLUS => precTERM
  | .MINUS => precTERM
  | .MULTIPLY => precFACTOR
  | .DIVIDE => precFACTOR
  | .MODULO => precFACTOR
  | .POWER => precPOWER
  | _ => precNONE

/-- `OperatorPrecedence.is_right_associative` (`RIGHT_ASSOCIATIVE`). -/
def isRightAssociative : TokenType → Bool
  | .ASSIGN => true
  | .POWER => true
  | .NOT => true
  | _ => false

/-! ## Parser (`parser/parser.py`) -/

/-- `self._peek()`: the current token, or `tokens[-1]` past the end. -/
def peekTok (ts : List Token) (i : Nat) : Token :=
  if i < ts.length then ts.getD i dummyToken else ts.getLastD dummyToken

/-- `tokens[current - 1]`, with Python's negative indexing at `current = 0`. -/
def prevTok (ts : List Token) (i : Nat) : Token :=
  if i = 0 then ts.getLastD dummyToken else ts.getD (i - 1) dummyToken

/-- `self._is_at_end()`. -/
def isAtEnd (ts : List Token) (i : Nat) : Bool :=
  i ≥ ts.length || (i < ts.length && (peekTok ts i).type = .EOF)

/-- `self._advance()`: returns the consumed token and the new position
(the position advances only when not at the end). -/
def advanceTok (ts : List Token) (i : Nat) : Token × Nat :=
  if isAtEnd ts i then (prevTok ts i, i) else (peekTok ts i, i + 1)

/-- `self._check(token_type)`. -/
def checkTok (ts : List Token) (i : Nat) (tt : TokenType) : Bool :=
  !isAtEnd ts i && (peekTok ts i).type = tt

/-- `self._consume(token_type, message)`. -/
def consumeTok (ts : List Token) (i : Nat) (tt : TokenType) (msg : String) :
    Except PyExc (Token × Nat) :=
  if checkTok ts i tt then .ok (advanceTok ts i)
  else .error (mkSyntaxError msg)

/-- String payload of a token (operators, identifiers and keywords carry
their text as value). -/
def tokStr (t : Token) : String :=
  match t.value with
  | .vstr s => s
  | _ => ""

def tokNum (t : Token) : PyNum :=
  match t.value with
  | .vnum x => x
  | _ => .int 0

/-- `self._check_assignment()`: an `IDENTIFIER` whose successor token is
`:=`. -/
def checkAssignment (ts : List Token) (i : Nat) : Bool :=
  checkTok ts i .IDENTIFIER &&
    (i + 1 < ts.length && (ts.getD (i + 1) dummyToken).type = .ASSIGN)

mutual

/-- `self._parse_precedence(precedence)`: prefix part then the
precedence-climbing infix loop. -/
def parsePrecedenceFn (fuel : Nat) (ts : List Token) (minPrec : Nat) (i : Nat) :
    Except PyExc (ASTNode × Nat) :=
  match fuel with
  | 0 => .error (mkExc .fuelExhausted "parser fuel exhausted")
  | fuel + 1 => do
    let (left, i) ← parsePrefixFn fuel ts i
    parseClimbLoop fuel ts minPrec left i
termination_by structural fuel

/-- The `while` loop inside `_parse_precedence`. -/
def parseClimbLoop (fuel : Nat) (ts : List Token) (minPrec : Nat)
    (left : ASTNode) (i : Nat) : Except PyExc (ASTNode × Nat) :=
  match fuel with
  | 0 => .error (mkExc .fuelExhausted "parser fuel exhausted")
  | fuel + 1 =>
    if !isAtEnd ts i && getPrecedence (peekTok ts i).type ≥ minPrec then do
      let (opTok, i) := advanceTok ts i
      let (left', i) ← parseInfixFn fuel ts left opTok i
      parseClimbLoop fuel ts minPrec left' i
    else .ok (left, i)
termination_by structural fuel

/-- `self._parse_infix(left, operator_token)`; a right-associative
operator recurses at one precedence level lower. -/
def parseInfixFn (fuel : Nat) (ts : List Token) (left : ASTNode)
    (opTok : Token) (i : Nat) : Except PyExc (ASTNode × Nat) :=
  match fuel with
  | 0 => .error (mkExc .fuelExhausted "parser fuel exhausted")
  | fuel + 1 => do
    let p := getPrecedence opTok.type
    let p := if isRightAssociative opTok.type then p - 1 else p
    let (right, i) ← parsePrecedenceFn fuel ts p i
    pure (.binaryOp left (tokStr opTok) right, i)
termination_by structural fuel

/-- `self._parse_prefix()`. -/
def parsePrefixFn (fuel : Nat) (ts : List Token) (i : Nat) :
    Except PyExc (ASTNode × Nat) :=
  match fuel with
  | 0 => .error (mkExc .fuelExhausted "parser fuel exhausted")
  | fuel + 1 =>
    let (token, i) := advanceTok ts i
    match token.type with
    | .NUMBER => .ok (.numberLit (tokNum token), i)
    | .STRING => .ok (.stringLit (tokStr token), i)
    | .IDENTIFIER => parseIdentOrCallFn fuel ts token i
    | .LEFT_PAREN => do
      let (e, i) ← parsePrecedenceFn fuel ts precASSIGNMENT i
      let (_, i) ← consumeTok ts i .RIGHT_PAREN "Expected ')' after expression"
      pure (e, i)
    | .MINUS => do
      let (operand, i) ← parsePrecedenceFn fuel ts precUNARY i
      pure (.unaryOp (tokStr token) operand, i)
    | .NOT => do
      let (operand, i) ← parsePrecedenceFn fuel ts precUNARY i
      pure (.unaryOp (tokStr token) operand, i)
    | .IF => parseConditionalFn fuel ts i
    | _ => .error (mkSyntaxError ("Unexpected token '" ++ tokStr token ++ "'"))
termination_by structural fuel

/-- `self._parse_identifier_or_call(name_token)`. -/
def parseIdentOrCallFn (fuel : Nat) (ts : List Token) (nameTok : Token)
    (i : Nat) : Except PyExc (ASTNode × Nat) :=
  match fuel with
  | 0 => .error (mkExc .fuelExhausted "parser fuel exhausted")
  | fuel + 1 =>
    if checkTok ts i .LEFT_PAREN then
      parseFunctionCallFn fuel ts (tokStr nameTok) i
    else if checkTok ts i .LEFT_BRACKET then
      parseArrayAccessFn fuel ts (.identifier (tokStr nameTok)) i
    else .ok (.identifier (tokStr nameTok), i)
termination_by structural fuel

/-- `self._parse_function_call(name)`. -/
def parseFunctionCallFn (fuel : Nat) (ts : List Token) (name : String)
    (i : Nat) : Except PyExc (ASTNode × Nat) :=
  match fuel with
  | 0 => .error (mkExc .fuelExhausted "parser fuel exhausted")
  | fuel + 1 => do
    let (_, i) ← consumeTok ts i .LEFT_PAREN "Expected '(' after function name"
    if !checkTok ts i .RIGHT_PAREN then do
      let (arg, i) ← parsePrecedenceFn fuel ts precASSIGNMENT i
      let (args, i) ← parseArgListLoop fuel ts [arg] i
      let (_, i) ← consumeTok ts i .RIGHT_PAREN "Expected ')' after function arguments"
      pure (.functionCall name args.reverse, i)
    else do
      let (_, i) ← consumeTok ts i .RIGHT_PAREN "Expected ')' after function arguments"
      pure (.functionCall name [], i)
termination_by structural fuel

/-- The `while self._check(COMMA)` argument loop of
`_parse_function_call`; accumulates in reverse. -/
def parseArgListLoop (fuel : Nat) (ts : List Token) (acc : List ASTNode)
    (i : Nat) : Except PyExc (List ASTNode × Nat) :=
  match fuel with
  | 0 => .error (mkExc .fuelExhausted "parser fuel exhausted")
  | fuel + 1 =>
    if checkTok ts i .COMMA then do
      let (_, i) := advanceTok ts i
      let (arg, i) ← parsePrecedenceFn fuel ts precASSIGNMENT i
      parseArgListLoop fuel ts (arg :: acc) i
    else .ok (acc, i)
termination_by structural fuel

/-- `self._parse_array_access(array)`. -/
def parseArrayAccessFn (fuel : Nat) (ts : List Token) (arr : ASTNode)
    (i : Nat) : Except PyExc (ASTNode × Nat) :=
  match fuel with
  | 0 => .error (mkExc .fuelExhausted "parser fuel exhausted")
  | fuel + 1 => do
    let (_, i) ← consumeTok ts i .LEFT_BRACKET "Expected '['"
    let (index, i) ← parsePrecedenceFn fuel ts precASSIGNMENT i
    let (_, i) ← consumeTok ts i .RIGHT_BRACKET "Expected ']' after array index"
    pure (.arrayAccess arr index, i)
termination_by structural fuel

/-- `self._parse_conditional()` (`IF` already consumed). -/
def parseConditionalFn (fuel : Nat) (ts : List Token) (i : Nat) :
    Except PyExc (ASTNode × Nat) :=
  match fuel with
  | 0 => .error (mkExc .fuelExhausted "parser fuel exhausted")
  | fuel + 1 => do
    let (_, i) ← consumeTok ts i .LEFT_PAREN "Expected '(' after 'IF'"
    let (cond, i) ← parsePrecedenceFn fuel ts precASSIGNMENT i
    let (_, i) ← consumeTok ts i .COMMA "Expected ',' after condition"
    let (tv, i) ← parsePrecedenceFn fuel ts precASSIGNMENT i
    let (_, i) ← consumeTok ts i .COMMA "Expected ',' after true value"
    let (fv, i) ← parsePrecedenceFn fuel ts precASSIGNMENT i
    let (_, i) ← consumeTok ts i .RIGHT_PAREN "Expected ')' after false value"
    pure (.conditional cond tv fv, i)
termination_by structural fuel

end

/-- `self._parse_expression()`. -/
def parseExpressionFn (fuel : Nat) (ts : List Token) (i : Nat) :
    Except PyExc (ASTNode × Nat) :=
  parsePrecedenceFn fuel ts precASSIGNMENT i

/-- `self._parse_statement()`. -/
def parseStatementFn (fuel : Nat) (ts : List Token) (i : Nat) :
    Except PyExc (ASTNode × Nat) := do
  if checkAssignment ts i then do
    let (nameTok, i) ← consumeTok ts i .IDENTIFIER "Expected variable name"
    let (_, i) ← consumeTok ts i .ASSIGN "Expected ':=' after variable name"
    let (value, i) ← parseExpressionFn fuel ts i
    let i := if checkTok ts i .SEMICOLON then (advanceTok ts i).2 else i
    pure (.assignment (tokStr nameTok) value, i)
  else do
    let (e, i) ← parseExpressionFn fuel ts i
    let i := if checkTok ts i .SEMICOLON then (advanceTok ts i).2 else i
    pure (e, i)

/-- The statement loop of `TDXParser.parse`: skip newlines, parse
statements until the end; accumulates in reverse. -/
def parseProgramLoop (fuel : Nat) (ts : List Token) (i : Nat)
    (acc : List ASTNode) : Except PyExc ASTNode :=
  match fuel with
  | 0 => .error (mkExc .fuelExhausted "parser fuel exhausted")
  | fuel + 1 =>
    if isAtEnd ts i then .ok (.program acc.reverse)
    else if checkTok ts i .NEWLINE then
      parseProgramLoop fuel ts ((advanceTok ts i).2) acc
    else do
      let (stmt, i) ← parseStatementFn fuel ts i
      parseProgramLoop fuel ts i (stmt :: acc)

/-- Ample fuel for a token list: the parser consumes at least one token
per non-trivial step. -/
def parserFuel (ts : List Token) : Nat := (ts.length + 2) * (ts.length + 2) * 8

/-- `TDXParser.parse(tokens)`. -/
def parseTokens (ts : List Token) : Except PyExc ASTNode :=
  parseProgramLoop (parserFuel ts) ts 0 []

/-- `tokenize` then `parse`, the front half of `TDXInterpreter.evaluate`. -/
def parseFormula (s : String) : Except PyExc ASTNode := do
  let ts ← tokenize s
  parseTokens ts

/-! ## Registered functions (`functions/base.py`, `functions/registry.py`) -/

/-- Case-folding to upper case (`str.upper()` on ASCII names). -/
def strUpper (s : String) : String := String.mk (s.data.map Char.toUpper)

/-- `ParameterType`. -/
inductive ParamType where
  | NUMBER | SERIES | INTEGER | BOOLEAN | STRING | ANY
deriving DecidableEq, Repr

/-- `Parameter` (name, type, required flag, default, numeric range). -/
structure ParamSpec where
  pname : String
  ptype : ParamType
  required : Bool
  default : Value
  minValue : Option ℚ
  maxValue : Option ℚ

/-- `Parameter(name, type)` with the defaults of the dataclass. -/
def mkParam (pname : String) (ptype : ParamType) : ParamSpec :=
  ⟨pname, ptype, true, Value.none, Option.none, Option.none⟩

/-- `int(value)` on a float that `is_integer()`; other floats fail the
check in the caller. -/
def ratIsInteger (q : ℚ) : Bool := q.den = 1

/-- `Parameter._validate_type`. -/
def paramValidateType (p : ParamSpec) (v : Value) : Except PyExc Value :=
  match p.ptype with
  | .NUMBER =>
    match v with
    | .num x =>
      match x with
      | .int n => .ok (.num (.float (n : ℚ)))
      | other => .ok (.num other)
    | .bool b => .ok (.num (.float (if b then 1 else 0)))
    | .series xs => .ok (.series xs)
    | .boolSeries bs => .ok (.boolSeries bs)
    | _ => .error (mkTypeError ("Parameter '" ++ p.pname ++ "' must be a number or series"))
  | .SERIES =>
    match v with
    | .series xs => .ok (.series xs)
    | .boolSeries bs => .ok (.boolSeries bs)
    | _ => .error (mkTypeError ("Parameter '" ++ p.pname ++ "' must be a series"))
  | .INTEGER =>
    match v with
    | .num (.int n) => .ok (.num (.int n))
    | .bool b => .ok (.num (.int (if b then 1 else 0)))
    | .num (.float q) =>
      if ratIsInteger q then .ok (.num (.int q.num))
      else .error (mkTypeError ("Parameter '" ++ p.pname ++ "' must be an integer"))
    | _ => .error (mkTypeError ("Parameter '" ++ p.pname ++ "' must be an integer"))
  | .BOOLEAN =>
    match v with
    | .bool b => .ok (.bool b)
    | _ => .error (mkTypeError ("Parameter '" ++ p.pname ++ "' must be a boolean"))
  | .STRING =>
    match v with
    | .str s => .ok (.str s)
    | _ => .error (mkTypeError ("Parameter '" ++ p.pname ++ "' must be a string"))
  | .ANY => .ok v

/-- `Parameter._validate_range` on the scalar values it can compare;
comparing a series against a bound is ambiguous in pandas. -/
def paramValidateRange (p : ParamSpec) (v : Value) : Except PyExc Value :=
  match v with
  | .num x =>
    match x.toQ? with
    | some q =>
      match p.minValue with
      | some lo =>
        if q < lo then
          .error (mkValueError ("Parameter '" ++ p.pname ++ "' must be >= " ++ toString lo))
        else
          match p.maxValue with
          | some hi =>
            if q > hi then
              .error (mkValueError ("Parameter '" ++ p.pname ++ "' must be <= " ++ toString hi))
            else .ok v
          | Option.none => .ok v
      | Option.none =>
        match p.maxValue with
        | some hi =>
          if q > hi then
            .error (mkValueError ("Parameter '" ++ p.pname ++ "' must be <= " ++ toString hi))
          else .ok v
        | Option.none => .ok v
    | Option.none => .ok v
  | _ =>
    if p.minValue.isSome || p.maxValue.isSome then
      .error (mkExc .pyValueError "The truth value of a Series is ambiguous.")
    else .ok v

/-- `Parameter.validate(value)` with `None` meaning "argument missing". -/
def paramValidate (p : ParamSpec) (v : Option Value) : Except PyExc Value :=
  match v with
  | Option.none =>
    if p.required then
      .error (mkArgumentError ("Parameter '" ++ p.pname ++ "' is required"))
    else .ok p.default
  | some v => do
    let v ← paramValidateType p v
    match p.ptype with
    | .NUMBER => paramValidateRange p v
    | .INTEGER => paramValidateRange p v
    | _ => .ok v

/-- A registered function object: name, parameter specs and the
`calculate` implementation. -/
structure TDXFunctionModel where
  fname : String
  params : List ParamSpec
  calculate : List Value → Except PyExc Value

/-- `TDXFunction._validate_arguments` (positional arguments only, the
evaluator never passes keyword arguments). -/
def validateArguments (f : TDXFunctionModel) (args : List Value) :
    Except PyExc (List Value) := do
  let requiredCount := (f.params.filter (·.required)).length
  let totalCount := f.params.length
  if args.length < requiredCount then
    .error (mkArgumentError ("Function '" ++ f.fname ++ "' requires at least " ++
      toString requiredCount ++ " arguments, got " ++ toString args.length))
  else if args.length > totalCount then
    .error (mkArgumentError ("Function '" ++ f.fname ++ "' accepts at most " ++
      toString totalCount ++ " arguments, got " ++ toString args.length))
  else
    f.params.mapIdxM fun idx p => paramValidate p (args.get? idx)

/-- `TDXFunction.__call__`: validate, then run `calculate`, re-raising
`TDXArgumentError`/`TDXTypeError`/`TDXValueError` unchanged and wrapping
any other failure into a `TDXArgumentError`. -/
def tdxFunCall (f : TDXFunctionModel) (args : List Value) : Except PyExc Value := do
  let validated ← validateArguments f args
  match f.calculate validated with
  | .ok v => .ok v
  | .error e =>
    if isArgTypeValueErr e then .error e
    else .error ⟨.tdx .tdxArgumentError, "Error in function '" ++ f.fname ++ "': " ++ e.message,
      [], some (e.cls, e.message)⟩

/-- `FunctionRegistry`: the name → function table and the alias table. -/
structure FunctionRegistry where
  functions : List (String × TDXFunctionModel)
  aliases : List (String × String)

def assocKeys {α : Type} (l : List (String × α)) : List String := l.map Prod.fst

/-- `FunctionRegistry.get(name)`: direct name, then alias, else
`TDXNameError` listing names and aliases. -/
def registryGet (reg : FunctionRegistry) (name : String) :
    Except PyExc TDXFunctionModel :=
  let u := strUpper name
  match reg.functions.lookup u with
  | some f => .ok f
  | Option.none =>
    match reg.aliases.lookup u with
    | some target =>
      match reg.functions.lookup target with
      | some f => .ok f
      | Option.none =>
        .error (mkNameError ("Function '" ++ u ++ "' is not defined")
          (assocKeys reg.functions ++ assocKeys reg.aliases))
    | Option.none =>
      .error (mkNameError ("Function '" ++ u ++ "' is not defined")
        (assocKeys reg.functions ++ assocKeys reg.aliases))

/-- `FunctionRegistry.has(name)`. -/
def registryHas (reg : FunctionRegistry) (name : String) : Bool :=
  let u := strUpper name
  (reg.functions.lookup u).isSome || (reg.aliases.lookup u).isSome

/-- `FunctionRegistry.call(name, *args)`. -/
def registryCall (reg : FunctionRegistry) (name : String) (args : List Value) :
    Except PyExc Value := do
  let f ← registryGet reg name
  tdxFunCall f args

/-! ## Rolling-window aggregation (pandas `Series.rolling`) -/

/-- The window of the last `p` cells ending at index `i`. -/
def windowAt (xs : List PyNum) (p i : Nat) : List PyNum :=
  (xs.take (i + 1)).drop (i + 1 - p)

def pdSum (ws : List PyNum) : PyNum := ws.foldl pyAdd (.int 0)

def pdMean (ws : List PyNum) : PyNum := pdDiv (pdSum ws) (.int ws.length)

def pdMaxNum (a b : PyNum) : PyNum :=
  if a = .nan ∨ b = .nan then .nan else if numLt a b then b else a

def pdMinNum (a b : PyNum) : PyNum :=
  if a = .nan ∨ b = .nan then .nan else if numLt a b then a else b

def pdMax (ws : List PyNum) : PyNum :=
  match ws with
  | [] => .nan
  | w :: r => r.foldl pdMaxNum w

def pdMin (ws : List PyNum) : PyNum :=
  match ws with
  | [] => .nan
  | w :: r => r.foldl pdMinNum w

/-- `series.rolling(window).agg()` with the default
`min_periods = window`: `nan` until the window is full. -/
def rollingAgg (agg : List PyNum → PyNum) (p : Nat) (xs : List PyNum) : List PyNum :=
  (List.range xs.length).map fun i =>
    if i + 1 < p then PyNum.nan else agg (windowAt xs p i)

/-- `series.rolling(window, min_periods=1).agg()`: every prefix window
counts. -/
def rollingAggMP1 (agg : List PyNum → PyNum) (p : Nat) (xs : List PyNum) : List PyNum :=
  (List.range xs.length).map fun i => agg (windowAt xs (min p (i + 1)) i)

/-- A `lambda data, period: data.rolling(period).agg()` placeholder
function of `TDXContext._init_builtin_functions`: a plain Python callable
of two positional arguments. -/
def ctxRollingLambda (agg : List PyNum → PyNum) : List Value → Except PyExc Value
  | [Value.series xs, Value.num (PyNum.int p)] =>
    if p ≤ 0 then .error (mkExc .pyValueError "window must be an integer 0 or greater")
    else .ok (.series (rollingAgg agg p.toNat xs))
  | [_, _] => .error (mkExc .pyTypeError "rolling is only valid with a series and an integer window")
  | _ => .error (mkExc .pyTypeError "lambda takes 2 positional arguments")

/-! ## Execution context (`core/context.py`) -/

/-- One variable scope: an insertion-ordered name → value table. -/
abbrev Scope := List (String × Value)

/-- Python `dict` assignment `d[k] = v`: overwrite in place, else
append. -/
def assocSet {α : Type} (l : List (String × α)) (k : String) (v : α) :
    List (String × α) :=
  if (l.lookup k).isSome then
    l.map fun kv => if kv.1 = k then (k, v) else kv
  else l ++ [(k, v)]

/-- `dict` assignment on a scope. -/
def scopeSet (s : Scope) (name : String) (v : Value) : Scope :=
  assocSet s name v

/-- `TDXContext`: the scope stack (global scope first, innermost last),
the bound data table (ordered columns of equal length), and the context's
own `_functions` table. -/
structure TDXContext where
  scopes : List Scope
  data : Option (List (String × List PyNum))
  functions : List (String × (List Value → Except PyExc Value))

/-- `_builtin_vars`. -/
def builtinVars : List String := ["OPEN", "HIGH", "LOW", "CLOSE", "VOLUME", "AMOUNT"]

/-- The names of the placeholder functions installed by
`_init_builtin_functions`. -/
def ctxInit : TDXContext :=
  ⟨[[]], Option.none,
   [("MA", ctxRollingLambda pdMean), ("SUM", ctxRollingLambda pdSum),
    ("MAX", ctxRollingLambda pdMax), ("MIN", ctxRollingLambda pdMin)]⟩

/-- `set_data(data)` with a dict of columns. -/
def ctxSetData (ctx : TDXContext) (cols : List (String × List PyNum)) : TDXContext :=
  ⟨ctx.scopes, some cols, ctx.functions⟩

/-- `push_scope()`. -/
def ctxPushScope (ctx : TDXContext) : TDXContext :=
  ⟨ctx.scopes ++ [[]], ctx.data, ctx.functions⟩

/-- `pop_scope()`: popping the sole global scope raises
`TDXRuntimeError`. -/
def ctxPopScope (ctx : TDXContext) : Except PyExc TDXContext :=
  if ctx.scopes.length ≤ 1 then
    .error (mkRuntimeError "Cannot pop global scope")
  else .ok ⟨ctx.scopes.dropLast, ctx.data, ctx.functions⟩

/-- `set_variable(name, value)`: writes into the innermost scope
(`self._scopes[-1]`). -/
def ctxSetVariable (ctx : TDXContext) (name : String) (v : Value) : TDXContext :=
  match ctx.scopes.getLast? with
  | some inner => ⟨ctx.scopes.dropLast ++ [scopeSet inner name v], ctx.data, ctx.functions⟩
  | Option.none => ⟨[[(name, v)]], ctx.data, ctx.functions⟩

/-- First match along the scope chain, innermost (last) scope first
(`for scope in reversed(self._scopes)`). -/
def lookupScopes (scopes : List Scope) (name : String) : Option Value :=
  scopes.reverse.findSome? fun s => s.lookup name

def dataColumn (ctx : TDXContext) (name : String) : Option (List PyNum) :=
  match ctx.data with
  | some cols => cols.lookup name
  | Option.none => Option.none

/-- `_get_available_names()`: scope names ∪ builtin names ∪ data columns
∪ function names, deduplicated and sorted. -/
def ctxAvailableNames (ctx : TDXContext) : List String :=
  let fromScopes := ctx.scopes.flatMap assocKeys
  let fromData :=
    match ctx.data with
    | some cols => assocKeys cols
    | Option.none => []
  let names := (fromScopes ++ builtinVars ++ fromData ++ assocKeys ctx.functions).dedup
  names.mergeSort (fun a b => decide (a ≤ b))

/-- `get_variable(name)`: a builtin-named data column is checked FIRST;
then the scope chain innermost → outermost; otherwise `TDXNameError`
carrying the sorted list of available names. -/
def ctxGetVariable (ctx : TDXContext) (name : String) : Except PyExc Value :=
  match (if name ∈ builtinVars then dataColumn ctx name else Option.none) with
  | some col => .ok (.series col)
  | Option.none =>
    match lookupScopes ctx.scopes name with
    | some v => .ok v
    | Option.none =>
      .error (mkNameError ("Variable '" ++ name ++ "' is not defined")
        (ctxAvailableNames ctx))

/-- `has_variable(name)`. -/
def ctxHasVariable (ctx : TDXContext) (name : String) : Bool :=
  (ctxGetVariable ctx name).isOk

/-- `register_function(name, func)`: stores the implementation in the
CONTEXT'S OWN `_functions` table under the upper-cased name. -/
def ctxRegisterFunction (ctx : TDXContext) (name : String)
    (func : List Value → Except PyExc Value) : TDXContext :=
  ⟨ctx.scopes, ctx.data, assocSet ctx.functions (strUpper name) func⟩

/-- `get_function(name)`: looks only in the context's own table, raising
`TDXNameError` (with the unsorted key list) when absent. -/
def ctxGetFunction (ctx : TDXContext) (name : String) :
    Except PyExc (List Value → Except PyExc Value) :=
  let u := strUpper name
  match ctx.functions.lookup u with
  | some f => .ok f
  | Option.none =>
    .error (mkNameError ("Function '" ++ u ++ "' is not defined")
      (assocKeys ctx.functions))

/-- `has_function(name)`. -/
def ctxHasFunction (ctx : TDXContext) (name : String) : Bool :=
  (ctx.functions.lookup (strUpper name)).isSome

/-! ## Operator helpers of the evaluator (`_add` … `_is_true`) -/

/-- A scalar usable in numeric position (Python `bool` is an `int`). -/
def asPyNumScalar : Value → Option PyNum
  | .num x => some x
  | .bool b => some (.int (if b then 1 else 0))
  | _ => Option.none

/-- The elementwise series combination shared by the arithmetic helpers:
`pd.Series(left) op pd.Series(right)`. -/
def numericSeriesOp (f : PyNum → PyNum → Except PyExc PyNum) (l r : Value) :
    Except PyExc Value := do
  let xs ← toNumCells l
  let ys ← toNumCells r
  let zs ← alignWith f xs ys
  pure (.series zs)

def unsupportedOperands (op : String) : PyExc :=
  mkExc .pyTypeError ("unsupported operand type(s) for " ++ op)

/-- `self._add`. -/
def evalAdd (l r : Value) : Except PyExc Value :=
  if l.isSeries || r.isSeries then
    numericSeriesOp (fun a b => .ok (pyAdd a b)) l r
  else
    match asPyNumScalar l, asPyNumScalar r with
    | some a, some b => .ok (.num (pyAdd a b))
    | _, _ =>
      match l, r with
      | .str s, .str t => .ok (.str (s ++ t))
      | _, _ => .error (unsupportedOperands "+")

/-- `self._subtract`. -/
def evalSub (l r : Value) : Except PyExc Value :=
  if l.isSeries || r.isSeries then
    numericSeriesOp (fun a b => .ok (pySub a b)) l r
  else
    match asPyNumScalar l, asPyNumScalar r with
    | some a, some b => .ok (.num (pySub a b))
    | _, _ => .error (unsupportedOperands "-")

/-- `self._multiply` (Python string repetition included). -/
def evalMul (l r : Value) : Except PyExc Value :=
  if l.isSeries || r.isSeries then
    numericSeriesOp (fun a b => .ok (pyMul a b)) l r
  else
    match asPyNumScalar l, asPyNumScalar r with
    | some a, some b => .ok (.num (pyMul a b))
    | _, _ =>
      match l, r with
      | .str s, .num (.int n) => .ok (.str (String.join (List.replicate n.toNat s)))
      | .num (.int n), .str s => .ok (.str (String.join (List.replicate n.toNat s)))
      | _, _ => .error (unsupportedOperands "*")

/-- `self._divide`: the scalar branch is Python `/` (which raises
`ZeroDivisionError` on a zero divisor), the series branch is pandas
elementwise division (which never raises on zero). -/
def evalDiv (l r : Value) : Except PyExc Value :=
  if l.isSeries || r.isSeries then
    numericSeriesOp (fun a b => .ok (pdDiv a b)) l r
  else
    match asPyNumScalar l, asPyNumScalar r with
    | some a, some b => do
      let q ← pyDiv a b
      pure (.num q)
    | _, _ => .error (unsupportedOperands "/")

/-- `self._modulo`. -/
def evalModOp (l r : Value) : Except PyExc Value :=
  if l.isSeries || r.isSeries then
    numericSeriesOp (fun a b => .ok (pdMod a b)) l r
  else
    match asPyNumScalar l, asPyNumScalar r with
    | some a, some b => do
      let q ← pyMod a b
      pure (.num q)
    | _, _ => .error (unsupportedOperands "%")

/-- `self._power`. -/
def evalPow (l r : Value) : Except PyExc Value :=
  if l.isSeries || r.isSeries then
    numericSeriesOp pdPow l r
  else
    match asPyNumScalar l, asPyNumScalar r with
    | some a, some b => do
      let q ← pyPow a b
      pure (.num q)
    | _, _ => .error (unsupportedOperands "** or pow()")

/-- Elementwise comparison of two (converted) series: pandas refuses to
compare differently-labelled series. -/
def seriesCompare (cmp : PyNum → PyNum → Bool) (l r : Value) :
    Except PyExc Value := do
  let xs ← toNumCells l
  let ys ← toNumCells r
  if xs.length = ys.length then
    pure (.boolSeries (List.zipWith cmp xs ys))
  else
    .error (mkExc .pyValueError "Can only compare identically-labeled Series objects")

/-- Scalar ordering comparison (`<`, `>`, `<=`, `>=`), Python semantics:
numbers compare numerically, strings lexicographically, mixed raises
`TypeError`. -/
def scalarOrderCompare (cmpN : PyNum → PyNum → Bool) (cmpS : String → String → Bool)
    (opName : String) (l r : Value) : Except PyExc Value :=
  match asPyNumScalar l, asPyNumScalar r with
  | some a, some b => .ok (.bool (cmpN a b))
  | _, _ =>
    match l, r with
    | .str s, .str t => .ok (.bool (cmpS s t))
    | _, _ =>
      .error (mkExc .pyTypeError
        ("'" ++ opName ++ "' not supported between the operand types"))

/-- Scalar `==`: mixed categories are unequal, never an error. -/
def scalarEq (l r : Value) : Bool :=
  match asPyNumScalar l, asPyNumScalar r with
  | some a, some b => numEq a b
  | _, _ =>
    match l, r with
    | .str s, .str t => decide (s = t)
    | .none, .none => true
    | _, _ => false

/-- `self._equal`. -/
def evalEq (l r : Value) : Except PyExc Value :=
  if l.isSeries || r.isSeries then seriesCompare numEq l r
  else .ok (.bool (scalarEq l r))

/-- `self._not_equal`. -/
def evalNe (l r : Value) : Except PyExc Value :=
  if l.isSeries || r.isSeries then seriesCompare (fun a b => !numEq a b) l r
  else .ok (.bool (!scalarEq l r))

/-- `self._greater`. -/
def evalGt (l r : Value) : Except PyExc Value :=
  if l.isSeries || r.isSeries then seriesCompare (fun a b => numLt b a) l r
  else scalarOrderCompare (fun a b => numLt b a) (fun s t => decide (t < s)) ">" l r

/-- `self._less`. -/
def evalLt (l r : Value) : Except PyExc Value :=
  if l.isSeries || r.isSeries then seriesCompare numLt l r
  else scalarOrderCompare numLt (fun s t => decide (s < t)) "<" l r

/-- `self._greater_equal`. -/
def evalGe (l r : Value) : Except PyExc Value :=
  if l.isSeries || r.isSeries then seriesCompare (fun a b => numLe b a) l r
  else scalarOrderCompare (fun a b => numLe b a) (fun s t => decide (t ≤ s)) ">=" l r

/-- `self._less_equal`. -/
def evalLe (l r : Value) : Except PyExc Value :=
  if l.isSeries || r.isSeries then seriesCompare numLe l r
  else scalarOrderCompare numLe (fun s t => decide (s ≤ t)) "<=" l r

def asBoolCells : Value → Option (List Bool)
  | .boolSeries bs => some bs
  | .bool b => some [b]
  | _ => Option.none

/-- pandas `&` on two aligned series: logical on boolean cells, bitwise
on integer cells, `TypeError` on float cells or mismatched labels. -/
def seriesBitwise (fb : Bool → Bool → Bool) (fi : ℤ → ℤ → ℤ) (l r : Value) :
    Except PyExc Value :=
  match asBoolCells l, asBoolCells r with
  | some xs, some ys =>
    if xs.length = ys.length then .ok (.boolSeries (List.zipWith fb xs ys))
    else .error (mkExc .pyTypeError "unsupported operand type for misaligned boolean series")
  | _, _ => do
    let xs ← toNumCells l
    let ys ← toNumCells r
    if xs.length = ys.length then do
      let zs ← (List.zip xs ys).mapM fun p =>
        match p.1, p.2 with
        | PyNum.int a, PyNum.int b => Except.ok (PyNum.int (fi a b))
        | _, _ =>
          Except.error (mkExc .pyTypeError "unsupported operand type(s) for bitwise logic")
      pure (.series zs)
    else .error (mkExc .pyTypeError "unsupported operand type for misaligned series")

/-- `self._and`: pandas `&` on series, Python `left and right` on
scalars (which returns one of the operands). -/
def evalAnd (l r : Value) : Except PyExc Value :=
  if l.isSeries || r.isSeries then seriesBitwise (fun a b => a && b) Int.land l r
  else .ok (if truthyVal l then r else l)

/-- `self._or`. -/
def evalOr (l r : Value) : Except PyExc Value :=
  if l.isSeries || r.isSeries then seriesBitwise (fun a b => a || b) Int.lor l r
  else .ok (if truthyVal l then l else r)

/-- `self._not`: pandas `~` on series, Python `not` on scalars. -/
def evalNot (v : Value) : Except PyExc Value :=
  match v with
  | .boolSeries bs => .ok (.boolSeries (bs.map Bool.not))
  | .series xs =>
    match xs.mapM (fun x => match x with
      | PyNum.int n => some (PyNum.int (-(n + 1)))
      | _ => Option.none) with
    | some zs => .ok (.series zs)
    | Option.none =>
      .error (mkExc .pyTypeError "bad operand type for unary invert on float cells")
  | other => .ok (.bool (!truthyVal other))

/-- `self._negate`. -/
def evalNegate (v : Value) : Except PyExc Value :=
  match v with
  | .series xs => .ok (.series (xs.map pyNeg))
  | .boolSeries _ =>
    .error (mkExc .pyTypeError "the numpy boolean negative is not supported")
  | .num x => .ok (.num (pyNeg x))
  | .bool b => .ok (.num (.int (-(if b then 1 else 0))))
  | _ => .error (mkExc .pyTypeError "bad operand type for unary -")

/-- The operator dispatch inside the `try` of `visit_binary_operation`;
an unknown operator raises `TDXRuntimeError` (inside the same `try`). -/
def applyBinary (op : String) (l r : Value) : Except PyExc Value :=
  if op = "+" then evalAdd l r
  else if op = "-" then evalSub l r
  else if op = "*" then evalMul l r
  else if op = "/" then evalDiv l r
  else if op = "%" then evalModOp l r
  else if op = "^" then evalPow l r
  else if op = "=" then evalEq l r
  else if op = "<>" ∨ op = "!=" then evalNe l r
  else if op = ">" then evalGt l r
  else if op = "<" then evalLt l r
  else if op = ">=" then evalGe l r
  else if op = "<=" then evalLe l r
  else if op = "AND" then evalAnd l r
  else if op = "OR" then evalOr l r
  else .error (mkRuntimeError ("Unknown binary operator: " ++ op))

/-- The operator dispatch inside the `try` of `visit_unary_operation`. -/
def applyUnary (op : String) (v : Value) : Except PyExc Value :=
  if op = "-" then evalNegate v
  else if op = "NOT" then evalNot v
  else .error (mkRuntimeError ("Unknown unary operator: " ++ op))

/-- `int(index)` on the index value accepted by `visit_array_access`
(`isinstance(index, (int, float))` — a Python bool is an int); Python
`int()` truncates a float toward zero (`int(-2.7) = -2`). -/
def indexAsInt : Value → Except PyExc ℤ
  | .num (.int n) => .ok n
  | .num (.float q) => .ok (q.num.tdiv (q.den : ℤ))
  | .num .nan => .error (mkExc .pyValueError "cannot convert float NaN to integer")
  | .num .inf => .error (mkExc .pyValueError "cannot convert float infinity to integer")
  | .num .ninf => .error (mkExc .pyValueError "cannot convert float infinity to integer")
  | .bool b => .ok (if b then 1 else 0)
  | _ => .error (mkTypeError "Array index must be a number")

/-- `series.iloc[idx]`: positional access with Python's negative
indexing; out of range raises `IndexError`. -/
def ilocNum (xs : List PyNum) (i : ℤ) : Except PyExc PyNum :=
  let pos : ℤ := if i < 0 then (xs.length : ℤ) + i else i
  if 0 ≤ pos ∧ pos < (xs.length : ℤ) then .ok (xs.getD pos.toNat .nan)
  else .error (mkExc .indexError "single positional indexer is out-of-bounds")

def ilocBool (bs : List Bool) (i : ℤ) : Except PyExc Bool :=
  let pos : ℤ := if i < 0 then (bs.length : ℤ) + i else i
  if 0 ≤ pos ∧ pos < (bs.length : ℤ) then .ok (bs.getD pos.toNat false)
  else .error (mkExc .indexError "single positional indexer is out-of-bounds")

/-- The body of the `try` in `visit_array_access`: the base must be a
series, the index a number; the result is the SINGLE ELEMENT
`array.iloc[int(index)]`. -/
def applyArrayAccess (arr idx : Value) : Except PyExc Value :=
  match arr with
  | .series xs => do
    let i ← indexAsInt idx
    let x ← ilocNum xs i
    pure (.num x)
  | .boolSeries bs => do
    let i ← indexAsInt idx
    let b ← ilocBool bs i
    pure (.bool b)
  | _ => .error (mkTypeError "Array access requires a series")

/-! ## The AST evaluator (`core/evaluator.py`) -/

/-- `ASTEvaluator`'s visitor dispatch: evaluates a node against the
context, threading the context through sub-evaluations (the Python
context is a shared mutable object).  The registry parameter stands for
the module-global `registry` consulted by `visit_function_call`.  The
Python recursion is structural on the tree; here fuel bounds the
recursion depth, one unit per tree level, so any fuel above the node's
depth behaves identically. -/
def evalNode (reg : FunctionRegistry) : Nat → ASTNode → TDXContext →
    Except PyExc (Value × TDXContext)
  | 0, _, _ => .error (mkExc .fuelExhausted "evaluator fuel exhausted")
  | _ + 1, .numberLit v, ctx => .ok (.num v, ctx)
  | _ + 1, .stringLit s, ctx => .ok (.str s, ctx)
  | _ + 1, .identifier name, ctx => do
    let v ← ctxGetVariable ctx name
    pure (v, ctx)
  | fuel + 1, .binaryOp l op r, ctx => do
    let (lv, ctx) ← evalNode reg fuel l ctx
    let (rv, ctx) ← evalNode reg fuel r ctx
    match applyBinary op lv rv with
    | .ok v => .ok (v, ctx)
    | .error e => .error (wrapRuntime ("Error in binary operation '" ++ op ++ "': ") e)
  | fuel + 1, .unaryOp op operand, ctx => do
    let (v, ctx) ← evalNode reg fuel operand ctx
    match applyUnary op v with
    | .ok w => .ok (w, ctx)
    | .error e => .error (wrapRuntime ("Error in unary operation '" ++ op ++ "': ") e)
  | fuel + 1, .functionCall name args, ctx => do
    let (vals, ctx) ← args.foldlM
      (fun acc a => do
        let (v, c) ← evalNode reg fuel a acc.2
        pure (acc.1 ++ [v], c))
      (([] : List Value), ctx)
    match registryCall reg name vals with
    | .ok v => .ok (v, ctx)
    | .error e => .error (wrapRuntime ("Error calling function '" ++ name ++ "': ") e)
  | fuel + 1, .assignment name vnode, ctx => do
    let (v, ctx) ← evalNode reg fuel vnode ctx
    .ok (v, ctxSetVariable ctx name v)
  | fuel + 1, .conditional c t f, ctx => do
    let (cv, ctx) ← evalNode reg fuel c ctx
    if truthyVal cv then evalNode reg fuel t ctx else evalNode reg fuel f ctx
  | fuel + 1, .arrayAccess arrN idxN, ctx => do
    let (arr, ctx) ← evalNode reg fuel arrN ctx
    let (idx, ctx) ← evalNode reg fuel idxN ctx
    match applyArrayAccess arr idx with
    | .ok v => .ok (v, ctx)
    | .error e => .error (wrapRuntime "Error in array access: " e)
  | fuel + 1, .block stmts, ctx =>
    stmts.foldlM (fun acc s => evalNode reg fuel s acc.2) ((Value.none : Value), ctx)
  | fuel + 1, .program body, ctx =>
    body.foldlM (fun acc s => evalNode reg fuel s acc.2) ((Value.none : Value), ctx)
termination_by structural fuel => fuel

/-- `TDXInterpreter.evaluate(formula)` for an already-configured context:
tokenize, parse, evaluate (data binding is done on the context
separately).  The parser consumes at least one token ahead of every
recursive descent, so the token count bounds the AST depth and
`ts.length + 1` is always enough evaluator fuel. -/
def evaluateFormula (reg : FunctionRegistry) (ctx : TDXContext) (s : String) :
    Except PyExc (Value × TDXContext) := do
  let ts ← tokenize s
  let ast ← parseTokens ts
  evalNode reg (ts.length + 1) ast ctx

/-- Result value of a run, `none` when the run raised. -/
def runValue (reg : FunctionRegistry) (ctx : TDXContext) (s : String) : Option Value :=
  match evaluateFormula reg ctx s with
  | .ok p => some p.1
  | .error _ => Option.none

/-- Error class of a failed run. -/
def runErrClass (reg : FunctionRegistry) (ctx : TDXContext) (s : String) :
    Option ExcClass :=
  match evaluateFormula reg ctx s with
  | .ok _ => Option.none
  | .error e => some e.cls

/-- Cause chain entry of a failed run. -/
def runErrCause (reg : FunctionRegistry) (ctx : TDXContext) (s : String) :
    Option (Option (ExcClass × String)) :=
  match evaluateFormula reg ctx s with
  | .ok _ => Option.none
  | .error e => some e.cause

/-- Run a program, then look a variable up in the resulting context. -/
def runThenLookup (reg : FunctionRegistry) (ctx : TDXContext) (s name : String) :
    Option Value :=
  match evaluateFormula reg ctx s with
  | .ok p =>
    match ctxGetVariable p.2 name with
    | .ok v => some v
    | .error _ => Option.none
  | .error _ => Option.none

/-! ## Concrete registry and context fixtures -/

/-- `MAFunction.calculate`: `data.rolling(window=period, min_periods=1).mean()`. -/
def maCalculate : List Value → Except PyExc Value
  | [s, Value.num (PyNum.int p)] =>
    match toNumCells s with
    | .ok xs =>
      if p ≤ 0 then .error (mkExc .pyValueError "window must be an integer 0 or greater")
      else .ok (.series (rollingAggMP1 pdMean p.toNat xs))
    | .error e => .error e
  | _ => .error (mkExc .pyTypeError "MA expects a series and an integer period")

/-- `MAFunction`: parameters `data : SERIES` (required) and
`period : INTEGER, min 1` (required), per `functions/technical.py`. -/
def maFunction : TDXFunctionModel :=
  ⟨"MA",
   [mkParam "data" .SERIES,
    { mkParam "period" .INTEGER with minValue := some 1 }],
   maCalculate⟩

/-- The fragment of the module-global registry (populated by
`builtin_functions.register_all`) that the claims exercise; names such as
`ERROR_CALL` or `MYFUNC` are not registered there. -/
def sampleRegistry : FunctionRegistry := ⟨[("MA", maFunction)], []⟩

/-- A context with a bound `CLOSE` column `[10, 20, 30]`. -/
def ctxClose : TDXContext :=
  ctxSetData ctxInit [("CLOSE", [.int 10, .int 20, .int 30])]

/-- A context in which the bound builtin column `CLOSE` coexists with an
assigned scope variable of the same name. -/
def ctxShadow : TDXContext := ctxSetVariable ctxClose "CLOSE" (.num (.int 5))

/-- A trivial custom implementation used to probe function registration. -/
def fortyTwoFn : List Value → Except PyExc Value := fun _ => .ok (.num (.int 42))

/-- `ctxInit` after `register_function("MYFUNC", fortyTwoFn)`. -/
def ctxWithMyFunc : TDXContext := ctxRegisterFunction ctxInit "MYFUNC" fortyTwoFn

/-! ## Blank input: only whitespace, comments and newlines -/

/-- Input texts consisting only of horizontal whitespace, comments
(`//…`-to-end-of-line, `#…`-to-end-of-line, well-formed
`\x7b … \x7d` blocks) and newlines — including the empty text. -/
inductive BlankInput : List Char → Prop where
  | nil : BlankInput []
  | ws {c : Char} {r : List Char} :
      (c = ' ' ∨ c = '\t') → BlankInput r → BlankInput (c :: r)
  | nl {r : List Char} : BlankInput r → BlankInput ('\n' :: r)
  | lineComment {r : List Char} :
      BlankInput (r.dropWhile (fun d => d ≠ '\n')) → BlankInput ('/' :: '/' :: r)
  | hashComment {r : List Char} :
      BlankInput (r.dropWhile (fun d => d ≠ '\n')) → BlankInput ('#' :: r)
  | blockComment {r t r' : List Char} :
      splitCloseBrace r = some (t, r') → BlankInput r' → BlankInput ('\x7b' :: r)


/-! ## Supporting lemmas -/

theorem splitCloseBrace_length {cs t r' : List Char}
    (h : splitCloseBrace cs = some (t, r')) : r'.length < cs.length := by
  induction cs generalizing t r' with
  | nil => simp [splitCloseBrace] at h
  | cons c r ih =>
    simp only [splitCloseBrace] at h
    by_cases hc : c = '\x7d'
    · simp only [hc, if_true, eq_self_iff_true, if_pos] at h
      obtain ⟨-, h2⟩ := Prod.mk.injEq .. ▸ Option.some.injEq .. ▸ h
      subst h2
      simp
    · simp only [hc, if_false, if_neg, not_false_iff] at h
      cases hr : splitCloseBrace r with
      | none => rw [hr] at h; simp at h
      | some p =>
        rw [hr] at h
        have hlt : p.2.length < r.length := by
          rcases p with ⟨a, b⟩
          exact ih hr
        have h2 : r' = p.2 := by
          rcases p with ⟨a, b⟩
          simp at h
          exact h.2.symm
        rw [h2]
        simp only [List.length_cons]
        omega

theorem dropWhile_length_le {α : Type} (p : α → Bool) (l : List α) :
    (l.dropWhile p).length ≤ l.length := by
  induction l with
  | nil => simp [List.dropWhile]
  | cons a r ih =>
    by_cases hp : p a
    · rw [List.dropWhile_cons_of_pos hp]
      simp only [List.length_cons]
      omega
    · rw [List.dropWhile_cons_of_neg (by simpa using hp)]

theorem blankInput_dropWhile_hws {cs : List Char} (h : BlankInput cs) :
    BlankInput (cs.dropWhile isHWS) := by
  induction h with
  | nil => simpa using BlankInput.nil
  | ws hc hr ih =>
    rename_i c r
    have hp : isHWS c = true := by rcases hc with h1 | h1 <;> simp [isHWS, h1]
    rw [List.dropWhile_cons_of_pos hp]
    exact ih
  | nl hr _ =>
    rw [List.dropWhile_cons_of_neg (by simp [isHWS])]
    exact BlankInput.nl hr
  | lineComment hr =>
    rw [List.dropWhile_cons_of_neg (by simp [isHWS])]
    exact BlankInput.lineComment hr
  | hashComment hr =>
    rw [List.dropWhile_cons_of_neg (by simp [isHWS])]
    exact BlankInput.hashComment hr
  | blockComment hsp hr =>
    rw [List.dropWhile_cons_of_neg (by simp [isHWS])]
    exact BlankInput.blockComment hsp hr

theorem count_nl_takeWhile (r : List Char) :
    (r.takeWhile (fun d => d ≠ '\n')).count '\n' = 0 := by
  rw [List.count_eq_zero]
  intro h
  have := List.mem_takeWhile_imp h
  simp at this

theorem lookup_assocSet {α : Type} (l : List (String × α)) (k : String) (v : α) :
    (assocSet l k v).lookup k = some v := by
  unfold assocSet
  by_cases h : (l.lookup k).isSome
  · rw [if_pos h]
    induction l with
    | nil => simp [List.lookup] at h
    | cons a t ih =>
      simp only [List.map_cons]
      by_cases ha : a.1 = k
      · rw [if_pos ha]
        simp [List.lookup]
      · rw [if_neg ha]
        have hbeq : (k == a.1) = false := by
          simp only [beq_eq_false_iff_ne]
          exact fun he => ha he.symm
        simp only [List.lookup, hbeq] at h ⊢
        exact ih h
  · rw [if_neg h]
    induction l with
    | nil => simp [List.lookup]
    | cons a t ih =>
      by_cases ha : (k == a.1) = true
      · simp [List.lookup, ha] at h
      · have hbeq : (k == a.1) = false := by simpa using ha
        simp only [List.lookup, hbeq] at h
        simp only [List.cons_append, List.lookup, hbeq]
        exact ih h

theorem exceptBind_ok {ε α β : Type} (x : α) (f : α → Except ε β) :
    (Except.ok x >>= f : Except ε β) = f x := rfl

theorem exceptBind_err {ε α β : Type} (e : ε) (f : α → Except ε β) :
    (Except.error e >>= f : Except ε β) = Except.error e := rfl

theorem exceptBind_pure {ε α β : Type} (x : α) (f : α → Except ε β) :
    ((pure x : Except ε α) >>= f) = f x := rfl

theorem lexLoop_step_slashComment (f pos line col : Nat) (acc : List Token) (r : List Char) :
    lexLoop (f+1) ('/' :: '/' :: r) pos line col acc =
      lexLoop f (r.dropWhile (fun d => d ≠ '\n'))
        (pos + ('/' :: '/' :: (r.takeWhile (fun d => d ≠ '\n'))).length) line
        (col + ('/' :: '/' :: (r.takeWhile (fun d => d ≠ '\n'))).length) acc := by
  conv_lhs => simp only [lexLoop]
  rw [if_neg (by rw [List.takeWhile_cons_of_neg (by decide)]; simp)]
  simp only [matchComment]
  have hc : List.count '\n' ('/' :: '/' :: List.takeWhile (fun d => decide (d ≠ '\n')) r) = 0 := by
    simp only [List.count_cons, count_nl_takeWhile]
    decide
  rw [hc]
  simp

theorem lexLoop_step_hashComment (f pos line col : Nat) (acc : List Token) (r : List Char) :
    lexLoop (f+1) ('#' :: r) pos line col acc =
      lexLoop f (r.dropWhile (fun d => d ≠ '\n'))
        (pos + ('#' :: (r.takeWhile (fun d => d ≠ '\n'))).length) line
        (col + ('#' :: (r.takeWhile (fun d => d ≠ '\n'))).length) acc := by
  conv_lhs => simp only [lexLoop]
  rw [if_neg (by rw [List.takeWhile_cons_of_neg (by decide)]; simp)]
  simp only [matchComment]
  have hc : List.count '\n' ('#' :: List.takeWhile (fun d => decide (d ≠ '\n')) r) = 0 := by
    simp only [List.count_cons, count_nl_takeWhile]
    decide
  rw [hc]
  simp

theorem lexLoop_step_blockComment (f pos line col : Nat) (acc : List Token)
    (r t r' : List Char) (hsp : splitCloseBrace r = some (t, r')) :
    lexLoop (f+1) ('\x7b' :: r) pos line col acc =
      (if 0 < List.count '\n' ('\x7b' :: t) then
        lexLoop f r' (pos + ('\x7b' :: t).length) (line + List.count '\n' ('\x7b' :: t))
          ((('\x7b' :: t).reverse.takeWhile (fun c => c ≠ '\n')).length + 1) acc
      else lexLoop f r' (pos + ('\x7b' :: t).length) line (col + ('\x7b' :: t).length) acc) := by
  conv_lhs => simp only [lexLoop]
  rw [if_neg (by rw [List.takeWhile_cons_of_neg (by decide)]; simp)]
  simp only [matchComment, hsp]

theorem lexLoop_step_ws (f pos line col : Nat) (acc : List Token) (c : Char)
    (r : List Char) (hc : isHWS c = true) :
    lexLoop (f+1) (c::r) pos line col acc =
      lexLoop f ((c::r).dropWhile isHWS) (pos + ((c::r).takeWhile isHWS).length)
        line (col + ((c::r).takeWhile isHWS).length) acc := by
  conv_lhs => simp only [lexLoop]
  rw [if_pos (by rw [List.takeWhile_cons_of_pos hc]; simp)]

theorem lexLoop_blank :
    ∀ (fuel : Nat) (cs : List Char), BlankInput cs → cs.length < fuel →
    ∀ (pos line col : Nat) (acc : List Token),
    ∃ (ns : List Token) (p l c : Nat),
      lexLoop fuel cs pos line col acc =
        .ok (acc ++ ns ++ [⟨.EOF, .vnone, p, l, c⟩]) ∧
      ∀ t ∈ ns, t.type = .NEWLINE := by
  intro fuel
  induction fuel with
  | zero => intro cs _ hlen; omega
  | succ f ih =>
    intro cs hB hlen pos line col acc
    cases hB with
    | nil =>
      exact ⟨[], pos, line, col, by simp [lexLoop], by simp⟩
    | ws hc hr =>
      rename_i c r
      have hcb : isHWS c = true := by rcases hc with h1 | h1 <;> simp [isHWS, h1]
      rw [lexLoop_step_ws f pos line col acc c r hcb]
      have hB' : BlankInput ((c::r).dropWhile isHWS) :=
        blankInput_dropWhile_hws (BlankInput.ws hc hr)
      have hlen' : ((c::r).dropWhile isHWS).length < f := by
        rw [List.dropWhile_cons_of_pos hcb]
        have := dropWhile_length_le isHWS r
        simp only [List.length_cons] at hlen
        omega
      exact ih _ hB' hlen' _ _ _ acc
    | nl hr =>
      rename_i r
      rw [show lexLoop (f+1) ('\n' :: r) pos line col acc =
        lexLoop f r (pos+1) (line+1) 1
          (acc ++ [⟨.NEWLINE, .vstr "\n", pos, line, col⟩]) from rfl]
      have hlen' : r.length < f := by simp only [List.length_cons] at hlen; omega
      obtain ⟨ns, p, l, c, heq, hns⟩ := ih r hr hlen' (pos+1) (line+1) 1 _
      refine ⟨⟨.NEWLINE, .vstr "\n", pos, line, col⟩ :: ns, p, l, c, ?_, ?_⟩
      · rw [heq]; simp
      · intro t ht
        rcases List.mem_cons.mp ht with h | h
        · simp [h]
        · exact hns t h
    | lineComment hr =>
      rename_i r
      rw [lexLoop_step_slashComment]
      have hlen' : (r.dropWhile (fun d => d ≠ '\n')).length < f := by
        have := dropWhile_length_le (fun d => decide (d ≠ '\n')) r
        simp only [List.length_cons] at hlen
        omega
      exact ih _ hr hlen' _ _ _ acc
    | hashComment hr =>
      rename_i r
      rw [lexLoop_step_hashComment]
      have hlen' : (r.dropWhile (fun d => d ≠ '\n')).length < f := by
        have := dropWhile_length_le (fun d => decide (d ≠ '\n')) r
        simp only [List.length_cons] at hlen
        omega
      exact ih _ hr hlen' _ _ _ acc
    | blockComment hsp hr =>
      rename_i r t r'
      rw [lexLoop_step_blockComment f pos line col acc r t r' hsp]
      have hlen' : r'.length < f := by
        have := splitCloseBrace_length hsp
        simp only [List.length_cons] at hlen
        omega
      by_cases hnl : 0 < List.count '\n' ('\x7b' :: t)
      · rw [if_pos hnl]
        exact ih _ hr hlen' _ _ _ acc
      · rw [if_neg hnl]
        exact ih _ hr hlen' _ _ _ acc

theorem parseProgramLoop_newlines :
    ∀ (fuel : Nat) (ns : List Token) (eofTok : Token) (i : Nat) (acc : List ASTNode),
      (∀ t ∈ ns, t.type = .NEWLINE) → eofTok.type = .EOF →
      i ≤ ns.length → ns.length - i < fuel →
      parseProgramLoop fuel (ns ++ [eofTok]) i acc = .ok (.program acc.reverse) := by
  intro fuel
  induction fuel with
  | zero => intro ns eofTok i acc _ _ _ h; omega
  | succ f ih =>
    intro ns eofTok i acc hns heof hile hlt
    by_cases hi : i = ns.length
    · subst hi
      have hpeek : peekTok (ns ++ [eofTok]) ns.length = eofTok := by
        simp [peekTok, List.getD_eq_getElem?_getD, List.getElem?_append_right]
      have hend : isAtEnd (ns ++ [eofTok]) ns.length = true := by
        simp [isAtEnd, hpeek, heof]
      simp only [parseProgramLoop, hend]
      rfl
    · have hilt : i < ns.length := lt_of_le_of_ne hile hi
      have hpeek : peekTok (ns ++ [eofTok]) i = ns.getD i dummyToken := by
        simp only [peekTok, List.getD_eq_getElem?_getD]
        rw [if_pos (by simp only [List.length_append, List.length_cons, List.length_nil]; omega),
          List.getElem?_append_left hilt]
      have htype : (ns.getD i dummyToken).type = .NEWLINE := by
        have hmem : ns.getD i dummyToken ∈ ns := by
          rw [List.getD_eq_getElem?_getD, List.getElem?_eq_getElem hilt]
          exact List.getElem_mem hilt
        exact hns _ hmem
      have hend : isAtEnd (ns ++ [eofTok]) i = false := by
        simp only [isAtEnd, hpeek, htype, List.length_append, List.length_cons,
          List.length_nil, Bool.or_eq_false_iff, Bool.and_eq_false_iff]
        constructor
        · simp only [ge_iff_le, decide_eq_false_iff_not, not_le]
          omega
        · right
          simp
      have hcheck : checkTok (ns ++ [eofTok]) i .NEWLINE = true := by
        have htype2 : (ns[i]?.getD dummyToken).type = .NEWLINE := by
          simpa [List.getD_eq_getElem?_getD] using htype
        simp [checkTok, hend, hpeek, htype2]
      have hadv : (advanceTok (ns ++ [eofTok]) i).2 = i + 1 := by
        simp [advanceTok, hend]
      simp only [parseProgramLoop, hend, hcheck, hadv]
      simp only [Bool.false_eq_true, if_false, if_true]
      exact ih ns eofTok (i+1) acc hns heof (by omega) (by omega)

theorem evalNode_program_nil (reg : FunctionRegistry) (fuel : Nat)
    (ctx : TDXContext) :
    evalNode reg (fuel + 1) (.program []) ctx = .ok (.none, ctx) := rfl

theorem parseTokens_newlines (ns : List Token) (p l c : Nat)
    (hns : ∀ t ∈ ns, t.type = TokenType.NEWLINE) :
    parseTokens (ns ++ [⟨.EOF, .vnone, p, l, c⟩]) = .ok (.program []) := by
  have hfuel : ns.length - 0 < parserFuel (ns ++ [⟨.EOF, .vnone, p, l, c⟩]) := by
    unfold parserFuel
    simp only [List.length_append, List.length_cons, List.length_nil, Nat.sub_zero]
    have h1 : ns.length + (0 + 1) + 2 ≤
        (ns.length + (0 + 1) + 2) * (ns.length + (0 + 1) + 2) :=
      Nat.le_mul_of_pos_right _ (by omega)
    have h2 : (ns.length + (0 + 1) + 2) * (ns.length + (0 + 1) + 2) ≤
        (ns.length + (0 + 1) + 2) * (ns.length + (0 + 1) + 2) * 8 :=
      Nat.le_mul_of_pos_right _ (by omega)
    omega
  unfold parseTokens
  generalize hF : parserFuel (ns ++ [⟨.EOF, .vnone, p, l, c⟩]) = F at hfuel ⊢
  have hmain := parseProgramLoop_newlines F ns ⟨.EOF, .vnone, p, l, c⟩ 0 []
    hns rfl (by omega) hfuel
  simpa using hmain

/-! ## Claim theorems -/

/-- Claim C8 (confirmed): unary minus and `NOT` bind tighter than binary
`+`/`-` but looser than `^`: `-A + B` parses as `(-A) + B`,
`-A ^ B` parses as `-(A ^ B)`, likewise for `NOT`; in the precedence
table the unary level sits strictly between the additive level and the
power level. -/
theorem C8_unary_precedence :
    parseFormula "-A + B" =
      Except.ok (.program [.binaryOp (.unaryOp "-" (.identifier "A")) "+" (.identifier "B")]) ∧
    parseFormula "-A ^ B" =
      Except.ok (.program [.unaryOp "-" (.binaryOp (.identifier "A") "^" (.identifier "B"))]) ∧
    parseFormula "NOT A + B" =
      Except.ok (.program [.binaryOp (.unaryOp "NOT" (.identifier "A")) "+" (.identifier "B")]) ∧
    parseFormula "NOT A ^ B" =
      Except.ok (.program [.unaryOp "NOT" (.binaryOp (.identifier "A") "^" (.identifier "B"))]) ∧
    (getPrecedence .PLUS < precUNARY ∧ getPrecedence .MINUS < precUNARY ∧
      precUNARY < getPrecedence .POWER) :=
  ⟨rfl, rfl, rfl, rfl, by decide⟩

/-- Python `except C` catches a raised exception `e` exactly when `e`'s
class is a subclass of `C`; restricted here to the TDX classes. -/
def excCaughtBy (handler : TDXClass) (e : PyExc) : Bool :=
  match e.cls with
  | .tdx c => isSubclassOf c handler
  | _ => false

/-- Claim C9 (confirmed): `TDXTypeError`, `TDXNameError`, `TDXValueError`
and `TDXArgumentError` are all subclasses of `TDXRuntimeError` (itself a
subclass of `TDXError`), so the taxonomy is not disjoint and a handler
for the RuntimeError kind catches every typed evaluation error. -/
theorem C9_error_hierarchy :
    (∀ c, isTypedEvalError c = true →
      isSubclassOf c .tdxRuntimeError = true ∧ isSubclassOf c .tdxError = true ∧
      (∀ msg : String, excCaughtBy .tdxRuntimeError (mkExc (.tdx c) msg) = true)) ∧
    isSubclassOf .tdxRuntimeError .tdxError = true := by
  constructor
  · intro c hc
    cases c <;>
      first
        | exact absurd hc (by decide)
        | exact ⟨rfl, rfl, fun msg => rfl⟩
  · rfl

/-- Witness for C9 at the concrete class `TDXTypeError`. -/
theorem C9_error_hierarchy_witness :
    isTypedEvalError .tdxTypeError = true ∧
    (isSubclassOf .tdxTypeError .tdxRuntimeError = true ∧
      isSubclassOf .tdxTypeError .tdxError = true ∧
      (∀ msg : String, excCaughtBy .tdxRuntimeError (mkExc (.tdx .tdxTypeError) msg) = true)) :=
  ⟨by decide, C9_error_hierarchy.1 .tdxTypeError (by decide)⟩

/-- Claim C7 (confirmed): `NAME := expr` evaluates the right-hand side,
stores it in the current (innermost) scope via `set_variable`, and the
value is the statement's result; the program `A := 5; A + 1` evaluates
to `6` and afterwards `A` looks up to `5` in the same context. -/
theorem C7_assignment :
    (∀ (reg : FunctionRegistry) (fuel : Nat) (name : String) (vnode : ASTNode)
      (ctx ctx' : TDXContext) (v : Value),
      evalNode reg fuel vnode ctx = .ok (v, ctx') →
      evalNode reg (fuel + 1) (.assignment name vnode) ctx =
        .ok (v, ctxSetVariable ctx' name v)) ∧
    runValue sampleRegistry ctxInit "A := 5; A + 1" = some (.num (.int 6)) ∧
    runThenLookup sampleRegistry ctxInit "A := 5; A + 1" "A" = some (.num (.int 5)) := by
  refine ⟨?_, rfl, rfl⟩
  intro reg fuel name vnode ctx ctx' v h
  simp only [evalNode, h]
  rfl

/-- Witness for C7 at `A := 5` against the initial context. -/
theorem C7_assignment_witness :
    evalNode sampleRegistry 1 (.numberLit (.int 5)) ctxInit =
      .ok (.num (.int 5), ctxInit) ∧
    evalNode sampleRegistry 2 (.assignment "A" (.numberLit (.int 5))) ctxInit =
      .ok (.num (.int 5), ctxSetVariable ctxInit "A" (.num (.int 5))) :=
  ⟨rfl, C7_assignment.1 sampleRegistry 1 "A" (.numberLit (.int 5)) ctxInit ctxInit
    (.num (.int 5)) rfl⟩

/-- Claim C6 (confirmed): conditional truthiness is nonzero for scalars
and the all-true reduction for series; exactly one branch of
`IF(cond, then, else)` is evaluated, so
`IF(1 > 2, ERROR_CALL(), 42)` yields `42` even though `ERROR_CALL` is
unregistered and its standalone call raises. -/
theorem C6_conditional :
    (∀ xs : List PyNum, truthyVal (.series xs) = xs.all PyNum.truthy) ∧
    (∀ x : PyNum, truthyVal (.num x) = x.truthy) ∧
    (∀ (reg : FunctionRegistry) (fuel : Nat) (c t f : ASTNode)
      (ctx ctx₁ : TDXContext) (cv : Value),
      evalNode reg fuel c ctx = .ok (cv, ctx₁) →
      evalNode reg (fuel + 1) (.conditional c t f) ctx =
        (if truthyVal cv then evalNode reg fuel t ctx₁ else evalNode reg fuel f ctx₁)) ∧
    registryHas sampleRegistry "ERROR_CALL" = false ∧
    runValue sampleRegistry ctxInit "IF(1 > 2, ERROR_CALL(), 42)" = some (.num (.int 42)) ∧
    runErrClass sampleRegistry ctxInit "ERROR_CALL()" = some (.tdx .tdxRuntimeError) := by
  refine ⟨fun xs => rfl, fun x => rfl, ?_, rfl, rfl, rfl⟩
  intro reg fuel c t f ctx ctx₁ cv h
  simp only [evalNode, h]
  rfl

/-- Witness for C6's short-circuit equation at `IF(0, t, f)`. -/
theorem C6_conditional_witness :
    evalNode sampleRegistry 1 (.numberLit (.int 0)) ctxInit =
      .ok (.num (.int 0), ctxInit) ∧
    evalNode sampleRegistry 2
        (.conditional (.numberLit (.int 0)) (.functionCall "ERROR_CALL" [])
          (.numberLit (.int 7))) ctxInit =
      (if truthyVal (.num (.int 0)) then
        evalNode sampleRegistry 1 (.functionCall "ERROR_CALL" []) ctxInit
      else evalNode sampleRegistry 1 (.numberLit (.int 7)) ctxInit) :=
  ⟨rfl, C6_conditional.2.2.1 sampleRegistry 1 (.numberLit (.int 0))
    (.functionCall "ERROR_CALL" []) (.numberLit (.int 7)) ctxInit ctxInit
    (.num (.int 0)) rfl⟩

/-- Claim C1 is refuted: with `CLOSE = [10, 20, 30]`, evaluating
`CLOSE[1]` yields the single scalar element `20` (positional `iloc`
access), not a shifted `Series` of length 3. -/
theorem C1_counterexample :
    runValue sampleRegistry ctxClose "CLOSE[1]" = some (.num (.int 20)) ∧
    Value.isSeries (.num (.int 20)) = false ∧
    runValue sampleRegistry ctxClose "CLOSE[1]" ≠
      some (.series [.nan, .int 10, .int 20]) :=
  ⟨rfl, rfl, by decide⟩

/-- Claim C1 as amended: `Index` evaluation requires the base to be a
`Series` and the index a number; the result is the SINGLE SCALAR element
`array.iloc[int(index)]` — non-negative indices count from the start,
negative ones from the end — and a non-series base, a non-numeric index
or an out-of-range position raises an error that the evaluator wraps
into a `TDXRuntimeError` (no missing-value marker is produced). -/
theorem C1_array_access_amended :
    (∀ (xs : List PyNum) (i : ℤ),
      0 ≤ (if i < 0 then (xs.length : ℤ) + i else i) →
      (if i < 0 then (xs.length : ℤ) + i else i) < (xs.length : ℤ) →
      applyArrayAccess (.series xs) (.num (.int i)) =
        .ok (.num (xs.getD (if i < 0 then (xs.length : ℤ) + i else i).toNat .nan))) ∧
    (∀ (xs : List PyNum) (i : ℤ),
      ¬ (0 ≤ (if i < 0 then (xs.length : ℤ) + i else i) ∧
          (if i < 0 then (xs.length : ℤ) + i else i) < (xs.length : ℤ)) →
      applyArrayAccess (.series xs) (.num (.int i)) =
        .error (mkExc .indexError "single positional indexer is out-of-bounds")) ∧
    (∀ (xs : List PyNum) (s : String),
      applyArrayAccess (.series xs) (.str s) =
        .error (mkTypeError "Array index must be a number")) ∧
    (∀ (idx : Value) (x : PyNum),
      applyArrayAccess (.num x) idx =
        .error (mkTypeError "Array access requires a series")) ∧
    (∀ (reg : FunctionRegistry) (fuel : Nat) (arrN idxN : ASTNode)
      (ctx ctx₁ ctx₂ : TDXContext) (arr idx : Value) (v : Value),
      evalNode reg fuel arrN ctx = .ok (arr, ctx₁) →
      evalNode reg fuel idxN ctx₁ = .ok (idx, ctx₂) →
      applyArrayAccess arr idx = .ok v →
      evalNode reg (fuel + 1) (.arrayAccess arrN idxN) ctx = .ok (v, ctx₂)) ∧
    (∀ (reg : FunctionRegistry) (fuel : Nat) (arrN idxN : ASTNode)
      (ctx ctx₁ ctx₂ : TDXContext) (arr idx : Value) (e : PyExc),
      evalNode reg fuel arrN ctx = .ok (arr, ctx₁) →
      evalNode reg fuel idxN ctx₁ = .ok (idx, ctx₂) →
      applyArrayAccess arr idx = .error e →
      evalNode reg (fuel + 1) (.arrayAccess arrN idxN) ctx =
        .error (wrapRuntime "Error in array access: " e)) := by
  refine ⟨?_, ?_, fun xs s => rfl, fun idx x => rfl, ?_, ?_⟩
  · intro xs i h0 h1
    have hcond : (0 ≤ if i < 0 then (xs.length : ℤ) + i else i) ∧
        (if i < 0 then (xs.length : ℤ) + i else i) < (xs.length : ℤ) := ⟨h0, h1⟩
    have hi : ilocNum xs i =
        .ok (xs.getD (if i < 0 then (xs.length : ℤ) + i else i).toNat .nan) := by
      simp only [ilocNum]
      rw [if_pos hcond]
    simp only [applyArrayAccess, indexAsInt, exceptBind_ok, hi]
    rfl
  · intro xs i h
    have hi : ilocNum xs i =
        .error (mkExc .indexError "single positional indexer is out-of-bounds") := by
      simp only [ilocNum]
      rw [if_neg h]
    simp only [applyArrayAccess, indexAsInt, exceptBind_ok, hi]
    rfl
  · intro reg fuel arrN idxN ctx ctx₁ ctx₂ arr idx v h1 h2 h3
    simp only [evalNode, h1, exceptBind_ok, h2, h3]
  · intro reg fuel arrN idxN ctx ctx₁ ctx₂ arr idx e h1 h2 h3
    simp only [evalNode, h1, exceptBind_ok, h2, h3]

/-- Witness for C1's amended statement: `CLOSE[1]` on `[10, 20, 30]`
selects the element `20`, and the evaluator returns exactly that
scalar. -/
theorem C1_array_access_amended_witness :
    applyArrayAccess (.series [.int 10, .int 20, .int 30]) (.num (.int 1)) =
      .ok (.num (.int 20)) ∧
    evalNode sampleRegistry 2
        (.arrayAccess (.identifier "CLOSE") (.numberLit (.int 1))) ctxClose =
      .ok (.num (.int 20), ctxClose) := by
  constructor
  · have h := C1_array_access_amended.1 [.int 10, .int 20, .int 30] 1
      (by decide) (by decide)
    simpa using h
  · exact C1_array_access_amended.2.2.2.2.1 sampleRegistry 1 (.identifier "CLOSE")
      (.numberLit (.int 1)) ctxClose ctxClose ctxClose
      (.series [.int 10, .int 20, .int 30]) (.num (.int 1)) (.num (.int 20))
      rfl rfl rfl

/-- Claim C2 is refuted: `get_variable` checks builtin-named data
columns BEFORE the scope chain, so with the column `CLOSE = [10,20,30]`
bound and the scope variable `CLOSE := 5` assigned, lookup returns the
column — the variable does NOT shadow the column. -/
theorem C2_counterexample :
    lookupScopes ctxShadow.scopes "CLOSE" = some (.num (.int 5)) ∧
    ctxGetVariable ctxShadow "CLOSE" = .ok (.series [.int 10, .int 20, .int 30]) ∧
    ctxGetVariable ctxShadow "CLOSE" ≠ .ok (.num (.int 5)) := by
  refine ⟨rfl, rfl, ?_⟩
  intro h
  have := (Except.ok.injEq .. ▸ h)
  simp at this

/-- Claim C2 as amended: name resolution first checks whether the name
is one of the six builtin names AND a bound data column (returning that
column as a `Series`, even when a scope variable of the same name
exists); only otherwise is the scope chain searched innermost →
outermost (an inner binding shadowing outer ones); if both fail, a
`NameError` is raised whose payload is the deduplicated, sorted list of
all visible names (scope names ∪ builtin names ∪ data columns ∪
registered function names). -/
theorem C2_identifier_lookup_amended :
    (∀ (ctx : TDXContext) (name : String) (col : List PyNum),
      name ∈ builtinVars → dataColumn ctx name = some col →
      ctxGetVariable ctx name = .ok (.series col)) ∧
    (∀ (ctx : TDXContext) (name : String) (v : Value),
      (if name ∈ builtinVars then dataColumn ctx name else Option.none) = Option.none →
      lookupScopes ctx.scopes name = some v →
      ctxGetVariable ctx name = .ok v) ∧
    (∀ (ctx : TDXContext) (name : String),
      (if name ∈ builtinVars then dataColumn ctx name else Option.none) = Option.none →
      lookupScopes ctx.scopes name = Option.none →
      ctxGetVariable ctx name =
        .error (mkNameError ("Variable '" ++ name ++ "' is not defined")
          (ctxAvailableNames ctx))) ∧
    (∀ (outer : List Scope) (inner : Scope) (name : String) (v : Value),
      inner.lookup name = some v →
      lookupScopes (outer ++ [inner]) name = some v) ∧
    (∀ ctx : TDXContext, (ctxAvailableNames ctx).Pairwise (fun a b => a ≤ b)) := by
  refine ⟨?_, ?_, ?_, ?_, ?_⟩
  · intro ctx name col h1 h2
    simp only [ctxGetVariable, if_pos h1, h2]
  · intro ctx name v h1 h2
    simp only [ctxGetVariable, h1, h2]
  · intro ctx name h1 h2
    simp only [ctxGetVariable, h1, h2]
  · intro outer inner name v h
    simp [lookupScopes, List.findSome?, h]
  · intro ctx
    exact List.sorted_mergeSort' _

/-- Witness for C2's amended statement on the shadowed context: the
builtin column wins, and a non-builtin scope variable resolves through
the scope chain. -/
theorem C2_identifier_lookup_amended_witness :
    ("CLOSE" ∈ builtinVars ∧
      dataColumn ctxShadow "CLOSE" = some [.int 10, .int 20, .int 30]) ∧
    ctxGetVariable ctxShadow "CLOSE" = .ok (.series [.int 10, .int 20, .int 30]) :=
  ⟨⟨by decide, rfl⟩,
    C2_identifier_lookup_amended.1 ctxShadow "CLOSE" [.int 10, .int 20, .int 30]
      (by decide) rfl⟩

/-- Python `int()` applied to a float truncates toward zero:
`int(-2.7) = -2` and `int(2.7) = 2`, so a negative fractional array
index is truncated, not floored. -/
theorem indexAsInt_truncates_toward_zero :
    (indexAsInt (.num (.float (mkRat (-27) 10)))).toOption = some (-2) ∧
    (indexAsInt (.num (.float (mkRat 27 10)))).toOption = some 2 ∧
    (indexAsInt (.num (.float (mkRat (-27) 10)))).toOption ≠ some (-3) :=
  ⟨by decide, by decide, by decide⟩

/-- Claim C5 is refuted: after `Context.register_function("MYFUNC", …)`
the function is visible through the CONTEXT'S own table
(`has_function`/`get_function` succeed), yet evaluating the call
`MYFUNC()` dispatches to the separate module-global registry and fails
with a wrapped `TDXNameError` — the Context does not delegate to the
registry the evaluator consults. -/
theorem C5_counterexample :
    ctxHasFunction ctxWithMyFunc "MYFUNC" = true ∧
    (ctxGetFunction ctxWithMyFunc "MYFUNC").isOk = true ∧
    fortyTwoFn [] = .ok (.num (.int 42)) ∧
    runErrClass sampleRegistry ctxWithMyFunc "MYFUNC()" = some (.tdx .tdxRuntimeError) ∧
    runErrCause sampleRegistry ctxWithMyFunc "MYFUNC()" =
      some (some (.tdx .tdxNameError, "Function 'MYFUNC' is not defined")) ∧
    runValue sampleRegistry ctxWithMyFunc "MYFUNC()" ≠ some (.num (.int 42)) := by
  refine ⟨rfl, rfl, rfl, rfl, rfl, ?_⟩
  intro h
  have : (Option.none : Option Value) = some (.num (.int 42)) := h
  simp at this

/-- Claim C5 as amended: `register_function(name, impl)` stores `impl`
under the upper-cased name in the Context's OWN function table (leaving
scopes and data untouched), where `get_function`/`has_function` find it;
but a `Call` node dispatches to the module-global function registry, so
a name absent from that registry fails with a wrapped `TDXNameError`
regardless of what was registered on the Context. -/
theorem C5_register_function_amended :
    (∀ (ctx : TDXContext) (name : String) (func : List Value → Except PyExc Value),
      (ctxRegisterFunction ctx name func).functions.lookup (strUpper name) = some func ∧
      ctxHasFunction (ctxRegisterFunction ctx name func) name = true ∧
      (ctxRegisterFunction ctx name func).scopes = ctx.scopes ∧
      (ctxRegisterFunction ctx name func).data = ctx.data) ∧
    (∀ (reg : FunctionRegistry) (fuel : Nat) (name : String) (ctx : TDXContext),
      registryHas reg name = false →
      evalNode reg (fuel + 1) (.functionCall name []) ctx =
        .error (wrapRuntime ("Error calling function '" ++ name ++ "': ")
          (mkNameError ("Function '" ++ strUpper name ++ "' is not defined")
            (assocKeys reg.functions ++ assocKeys reg.aliases)))) := by
  constructor
  · intro ctx name func
    refine ⟨lookup_assocSet .., ?_, rfl, rfl⟩
    simp only [ctxHasFunction, ctxRegisterFunction, lookup_assocSet, Option.isSome_some]
  · intro reg fuel name ctx h
    simp only [registryHas, Bool.or_eq_false_iff] at h
    have h1 : reg.functions.lookup (strUpper name) = Option.none :=
      Option.not_isSome_iff_eq_none.mp (by simp [h.1])
    have h2 : reg.aliases.lookup (strUpper name) = Option.none :=
      Option.not_isSome_iff_eq_none.mp (by simp [h.2])
    have hget : registryGet reg name =
        .error (mkNameError ("Function '" ++ strUpper name ++ "' is not defined")
          (assocKeys reg.functions ++ assocKeys reg.aliases)) := by
      simp only [registryGet, h1, h2]
    have hcall : registryCall reg name [] =
        .error (mkNameError ("Function '" ++ strUpper name ++ "' is not defined")
          (assocKeys reg.functions ++ assocKeys reg.aliases)) := by
      simp only [registryCall, hget, exceptBind_err]
    simp only [evalNode, List.foldlM, exceptBind_pure, hcall]

/-- Witness for C5's amended statement with the concrete
`MYFUNC`/`fortyTwoFn` registration against the sample registry. -/
theorem C5_register_function_amended_witness :
    (ctxWithMyFunc.functions.lookup "MYFUNC" = some fortyTwoFn ∧
      ctxHasFunction ctxWithMyFunc "MYFUNC" = true ∧
      ctxWithMyFunc.scopes = ctxInit.scopes ∧
      ctxWithMyFunc.data = ctxInit.data) ∧
    registryHas sampleRegistry "MYFUNC" = false ∧
    evalNode sampleRegistry 1 (.functionCall "MYFUNC" []) ctxWithMyFunc =
      .error (wrapRuntime "Error calling function 'MYFUNC': "
        (mkNameError "Function 'MYFUNC' is not defined"
          (assocKeys sampleRegistry.functions ++ assocKeys sampleRegistry.aliases))) := by
  refine ⟨?_, rfl, ?_⟩
  · have h := C5_register_function_amended.1 ctxInit "MYFUNC" fortyTwoFn
    simpa using h
  · exact C5_register_function_amended.2 sampleRegistry 0 "MYFUNC" ctxWithMyFunc rfl

/-- Claim C3 is refuted for errors raised inside the operator/call
`try` blocks: the registry-side `TDXArgumentError` raised by `MA()` does
NOT reach the caller with its typed kind — `except Exception` wraps it
into a generic `TDXRuntimeError` (the typed error surviving only as the
`__cause__`). -/
theorem C3_counterexample :
    runErrClass sampleRegistry ctxInit "MA()" = some (.tdx .tdxRuntimeError) ∧
    runErrClass sampleRegistry ctxInit "MA()" ≠ some (.tdx .tdxArgumentError) ∧
    runErrCause sampleRegistry ctxInit "MA()" =
      some (some (.tdx .tdxArgumentError,
        "Function 'MA' requires at least 2 arguments, got 0")) := by
  refine ⟨rfl, ?_, rfl⟩
  intro h
  have : some (ExcClass.tdx .tdxRuntimeError) = some (ExcClass.tdx .tdxArgumentError) := h
  simp at this

/-- Claim C3 as amended: an exception raised while evaluating an operand
SUBTREE propagates to the caller unchanged (typed or not), because the
operand evaluations sit outside the `try`; but ANY exception raised by
the operator application or the registry call — the typed TDX errors
included — is wrapped into a generic `TDXRuntimeError` recording the
operator/function name, the original error surviving only as the cause. -/
theorem C3_error_wrapping_amended :
    (∀ (reg : FunctionRegistry) (fuel : Nat) (l r : ASTNode) (op : String)
      (ctx : TDXContext) (e : PyExc),
      evalNode reg fuel l ctx = .error e →
      evalNode reg (fuel + 1) (.binaryOp l op r) ctx = .error e) ∧
    (∀ (reg : FunctionRegistry) (fuel : Nat) (l r : ASTNode) (op : String)
      (ctx ctx₁ : TDXContext) (lv : Value) (e : PyExc),
      evalNode reg fuel l ctx = .ok (lv, ctx₁) →
      evalNode reg fuel r ctx₁ = .error e →
      evalNode reg (fuel + 1) (.binaryOp l op r) ctx = .error e) ∧
    (∀ (reg : FunctionRegistry) (fuel : Nat) (l r : ASTNode) (op : String)
      (ctx ctx₁ ctx₂ : TDXContext) (lv rv : Value) (e : PyExc),
      evalNode reg fuel l ctx = .ok (lv, ctx₁) →
      evalNode reg fuel r ctx₁ = .ok (rv, ctx₂) →
      applyBinary op lv rv = .error e →
      evalNode reg (fuel + 1) (.binaryOp l op r) ctx =
        .error (wrapRuntime ("Error in binary operation '" ++ op ++ "': ") e)) ∧
    (∀ (reg : FunctionRegistry) (fuel : Nat) (name : String) (ctx : TDXContext)
      (e : PyExc),
      registryCall reg name [] = .error e →
      evalNode reg (fuel + 1) (.functionCall name []) ctx =
        .error (wrapRuntime ("Error calling function '" ++ name ++ "': ") e)) ∧
    (∀ (p : String) (e : PyExc),
      (wrapRuntime p e).cls = .tdx .tdxRuntimeError ∧
      (wrapRuntime p e).cause = some (e.cls, e.message)) := by
  refine ⟨?_, ?_, ?_, ?_, fun p e => ⟨rfl, rfl⟩⟩
  · intro reg fuel l r op ctx e h
    simp only [evalNode, h, exceptBind_err]
  · intro reg fuel l r op ctx ctx₁ lv e h1 h2
    simp only [evalNode, h1, exceptBind_ok, h2, exceptBind_err]
  · intro reg fuel l r op ctx ctx₁ ctx₂ lv rv e h1 h2 h3
    simp only [evalNode, h1, exceptBind_ok, h2, h3]
  · intro reg fuel name ctx e h
    simp only [evalNode, List.foldlM, exceptBind_pure, h]

/-- Witness for C3's amended statement: the typed `TDXArgumentError`
from the zero-argument `MA` call is wrapped by the evaluator. -/
theorem C3_error_wrapping_amended_witness :
    registryCall sampleRegistry "MA" [] =
      .error (mkArgumentError "Function 'MA' requires at least 2 arguments, got 0") ∧
    evalNode sampleRegistry 1 (.functionCall "MA" []) ctxInit =
      .error (wrapRuntime "Error calling function 'MA': "
        (mkArgumentError "Function 'MA' requires at least 2 arguments, got 0")) :=
  ⟨rfl, C3_error_wrapping_amended.2.2.2.1 sampleRegistry 0 "MA" ctxInit
    (mkArgumentError "Function 'MA' requires at least 2 arguments, got 0") rfl⟩

/-- Claim C10 (confirmed): on any input consisting only of horizontal
whitespace, comments and newlines (the empty text included), `tokenize`
succeeds with a token list of newline tokens terminated by `EOF`,
`parse` yields a `Program` with zero statements, and evaluating that
empty program returns `None` rather than raising. -/
theorem C10_blank_input (cs : List Char) (hB : BlankInput cs) :
    ∃ ts : List Token,
      tokenizeChars cs = .ok ts ∧
      ts ≠ [] ∧
      (ts.getLastD dummyToken).type = .EOF ∧
      (∀ t ∈ ts.dropLast, t.type = .NEWLINE) ∧
      parseTokens ts = .ok (.program []) ∧
      (∀ (reg : FunctionRegistry) (fuel : Nat) (ctx : TDXContext),
        evalNode reg (fuel + 1) (.program []) ctx = .ok (.none, ctx)) := by
  obtain ⟨ns, p, l, c, heq, hns⟩ :=
    lexLoop_blank (cs.length + 1) cs hB (by omega) 0 1 1 []
  refine ⟨ns ++ [⟨.EOF, .vnone, p, l, c⟩], ?_, by simp, ?_, ?_, ?_, ?_⟩
  · simpa [tokenizeChars] using heq
  · simp [List.getLastD_concat]
  · rw [List.dropLast_concat]
    exact hns
  · exact parseTokens_newlines ns p l c hns
  · intro reg fuel ctx
    rfl

/-- A sample blank input: spaces, a line comment, a newline, a block
comment and a trailing newline. -/
def blankSample : List Char := "  // c\n\x7b b \x7d\n".data

/-- Witness for C10 at the concrete blank input `blankSample`. -/
theorem C10_blank_input_witness :
    BlankInput blankSample ∧
    (∃ ts : List Token,
      tokenizeChars blankSample = .ok ts ∧
      ts ≠ [] ∧
      (ts.getLastD dummyToken).type = .EOF ∧
      (∀ t ∈ ts.dropLast, t.type = .NEWLINE) ∧
      parseTokens ts = .ok (.program []) ∧
      (∀ (reg : FunctionRegistry) (fuel : Nat) (ctx : TDXContext),
        evalNode reg (fuel + 1) (.program []) ctx = .ok (.none, ctx))) :=
  have hder : BlankInput blankSample := by
    show BlankInput (' ' :: ' ' :: '/' :: '/' :: ' ' :: 'c' :: '\n' ::
      '\x7b' :: ' ' :: 'b' :: ' ' :: '\x7d' :: '\n' :: [])
    apply BlankInput.ws (Or.inl rfl)
    apply BlankInput.ws (Or.inl rfl)
    apply BlankInput.lineComment
    show BlankInput ('\n' :: '\x7b' :: ' ' :: 'b' :: ' ' :: '\x7d' :: '\n' :: [])
    apply BlankInput.nl
    apply BlankInput.blockComment
      (show splitCloseBrace (' ' :: 'b' :: ' ' :: '\x7d' :: '\n' :: []) =
        some (' ' :: 'b' :: ' ' :: '\x7d' :: [], '\n' :: []) from rfl)
    exact BlankInput.nl BlankInput.nil
  ⟨hder, C10_blank_input blankSample hder⟩

end TDX
